import Mathlib

/-!
# gatk_genotype: a shallow embedding of the pipeline driver

The Go program `gatk_genotype.go` orchestrates external tools.  Its own logic is
the order in which operations on the outside world are attempted, the arguments
they receive, and which error is returned.  The embedding makes that explicit:

* an operation on the outside world (`Op`) is answered by a `World`, an oracle
  that may depend on everything that happened before;
* every Go function becomes a state-passing function on the event trace;
* entering and leaving one of the Go functions is recorded as a `call` / `ret`
  event, so that the sequence of invoked steps can be read off the trace.
-/

namespace GatkGenotype

/-! ## Errors, streams and commands -/

/-- Go `error` values.  `EOF` is the sentinel `io.EOF`; `New` is an error with a
message (from the operating system, a library, or `fmt.Errorf` without `%w`);
`Wrapf pre e` is `fmt.Errorf(pre + ": %w", e)`. -/
inductive GoError where
  | EOF : GoError
  | New (msg : String) : GoError
  | Wrapf (pre : String) (inner : GoError) : GoError
  deriving DecidableEq, Repr

/-- The method `Error()` of a Go error. -/
def GoError.Error : GoError → String
  | .EOF => "EOF"
  | .New msg => msg
  | .Wrapf pre inner => pre ++ ": " ++ inner.Error

/-- What a standard stream of an `exec.Cmd` is connected to.  `null` is the field
left `nil` (os/exec then connects the stream to the null device).  The two ends of
the pipe made by `StdoutPipe` are named after the Go variable holding the read end. -/
inductive Stream where
  | null : Stream
  | osStdout : Stream
  | osStderr : Stream
  | pipeWriter (pipe : String) : Stream
  | pipeReader (pipe : String) : Stream
  | bufioWriter (path : String) : Stream
  deriving DecidableEq, Repr

/-- An `exec.Cmd`: the argument vector (`Args[0]` is the program) and the three
standard streams. -/
structure Cmd where
  Args : List String
  Stdin : Stream
  Stdout : Stream
  Stderr : Stream
  deriving DecidableEq, Repr

/-- The function `exec.Command(name, arg...)`: all streams start out `nil`. -/
def exec.Command (name : String) (arg : List String) : Cmd :=
  { Args := name :: arg, Stdin := .null, Stdout := .null, Stderr := .null }

/-- The record `ReadSet` of the source. -/
structure ReadSet where
  Name : String
  ForwardPath : String
  ReversePath : String
  deriving DecidableEq, Repr

/-- The record `Flags` of the source (Go `int` fields carry no arithmetic here). -/
structure Flags where
  RefPath : String
  SeqPairsPath : String
  Outpre : String
  Threads : Int
  MemoryGb : Int
  deriving DecidableEq, Repr

/-! ## Operations, events and the world -/

/-- Operations on the outside world that can fail. -/
inductive Op where
  | Run (c : Cmd) : Op
  | StdoutPipe (c : Cmd) : Op
  | Start (c : Cmd) : Op
  | Wait (c : Cmd) : Op
  | Create (path : String) : Op
  | Flush (path : String) : Op
  | Open (path : String) : Op
  | Close (path : String) : Op
  deriving DecidableEq, Repr

/-- A call of one of the Go functions that `FullFQFMimic` uses, with its arguments. -/
inductive StepCall where
  | BwaIndex (ref : String) : StepCall
  | Faidx (fapath : String) : StepCall
  | CreateDict (fapath : String) : StepCall
  | ParseReadSets (path : String) : StepCall
  | BwaMem (ref forward reverse out : String) (threads : Int) : StepCall
  | AddRG (inpath outpath name : String) : StepCall
  | SamIndex (bampath : String) : StepCall
  | HaplotypeCall (fapath bampath gvcfpath name : String) (memoryGb : Int) : StepCall
  | CombineGvcf (fapath gvcfoutpath vcfoutpath : String) (memoryGb : Int)
      (gvcfpaths : List String) : StepCall
  deriving DecidableEq, Repr

/-- Events of a run, oldest first. -/
inductive Event where
  | call (s : StepCall) : Event
  | op (o : Op) : Event
  | ret (s : StepCall) (err : Option GoError) : Event
  deriving DecidableEq, Repr

abbrev Trace := List Event

/-- One result of `csv.Reader.Read`: the record and the error (`none` is `nil`). -/
abbrev ReadResult := List String × Option GoError

/-- The outside world.  `outcome t o` is the error (or `none`) that operation `o`
returns when attempted after history `t`.  `manifest path` is the behaviour of the
csv reader over the file at `path`: the results of the successive calls of `Read`;
once they are used up `Read` reports `io.EOF`. -/
structure World where
  outcome : Trace → Op → Option GoError
  manifest : String → List ReadResult

/-- Attempt an operation: ask the world, record the event. -/
def perform (o : Op) (w : World) (t : Trace) : Option GoError × Trace :=
  (w.outcome t o, t ++ [Event.op o])

/-- The steps invoked in a trace, in order. -/
def calls : Trace → List StepCall
  | [] => []
  | Event.call s :: t => s :: calls t
  | _ :: t => calls t

/-- The steps that returned in a trace, each with the error it returned. -/
def rets : Trace → List (StepCall × Option GoError)
  | [] => []
  | Event.ret s r :: t => (s, r) :: rets t
  | _ :: t => rets t

/-- The operations attempted in a trace, in order. -/
def ops : Trace → List Op
  | [] => []
  | Event.op o :: t => o :: ops t
  | _ :: t => ops t

/-! ## ParseReadSets -/

/-- The verb `%v` applied to a `[]string`. -/
def fmtStrings (l : List String) : String :=
  "[" ++ " ".intercalate l ++ "]"

/-- The loop of `ParseReadSets` (source lines 191-201), run over the results that
the successive calls of `cr.Read()` deliver.  An exhausted reader reports `io.EOF`.
The result is the pair `(pairs, err)` of the two `return` statements. -/
def ParseReadSets.loop : List ReadResult → List ReadSet → List ReadSet × Option GoError
  | [], pairs => (pairs, none)
  | (l, e) :: rest, pairs =>
    if e = some GoError.EOF then (pairs, none)
    else if h : l.length < 3 then
      ([], some (GoError.New
        ("ParseReadSets: len(l) " ++ toString l.length ++ " < 3; l " ++ fmtStrings l)))
    else
      ParseReadSets.loop rest
        (pairs ++ [{ Name := l[0], ForwardPath := l[1], ReversePath := l[2] }])

/-- The function `ParseReadSets` of the source.  A failed `os.Open` returns before
the deferred `Close` is registered; otherwise `Close` runs after the loop and its
error is returned only when `err` is still `nil`. -/
def ParseReadSets (path : String) (w : World) (t : Trace) :
    (List ReadSet × Option GoError) × Trace :=
  let t0 := t ++ [Event.call (StepCall.ParseReadSets path)]
  match perform (Op.Open path) w t0 with
  | (some e, t1) => (([], some e), t1 ++ [Event.ret (StepCall.ParseReadSets path) (some e)])
  | (none, t1) =>
    let (pairs, err) := ParseReadSets.loop (w.manifest path) []
    match perform (Op.Close path) w t1 with
    | (e, t2) =>
      let err := if err = none then e else err
      ((pairs, err), t2 ++ [Event.ret (StepCall.ParseReadSets path) err])

/-! ## The single-command steps -/

/-- Record entry to and return from a Go function around its body. -/
def traced (s : StepCall) (body : World → Trace → Option GoError × Trace)
    (w : World) (t : Trace) : Option GoError × Trace :=
  match body w (t ++ [Event.call s]) with
  | (r, t1) => (r, t1 ++ [Event.ret s r])

/-- The command built by `BwaIndex` (source lines 23-25). -/
def BwaIndex.cmd (ref : String) : Cmd :=
  { exec.Command "bwa" ["index", ref] with Stdout := Stream.osStdout, Stderr := Stream.osStderr }

/-- The function `BwaIndex` of the source: `return cmd.Run()`. -/
def BwaIndex (ref : String) : World → Trace → Option GoError × Trace :=
  traced (StepCall.BwaIndex ref) (perform (Op.Run (BwaIndex.cmd ref)))

/-- The command built by `AddRG` (source lines 92-95). -/
def AddRG.cmd (inpath outpath name : String) : Cmd :=
  let rgchange := "@RG\tID:" ++ name ++ "\tSM:" ++ name
  { exec.Command "samtools" ["addreplacerg", "-r", rgchange, inpath, "-o", outpath] with
    Stdout := Stream.osStdout, Stderr := Stream.osStderr }

/-- The function `AddRG` of the source. -/
def AddRG (inpath outpath name : String) : World → Trace → Option GoError × Trace :=
  traced (StepCall.AddRG inpath outpath name) (perform (Op.Run (AddRG.cmd inpath outpath name)))

/-- The command built by `Faidx` (source lines 100-102). -/
def Faidx.cmd (fapath : String) : Cmd :=
  { exec.Command "samtools" ["faidx", fapath] with
    Stdout := Stream.osStdout, Stderr := Stream.osStderr }

/-- The function `Faidx` of the source. -/
def Faidx (fapath : String) : World → Trace → Option GoError × Trace :=
  traced (StepCall.Faidx fapath) (perform (Op.Run (Faidx.cmd fapath)))

/-- The command built by `SamIndex` (source lines 107-109). -/
def SamIndex.cmd (bampath : String) : Cmd :=
  { exec.Command "samtools" ["index", bampath] with
    Stdout := Stream.osStdout, Stderr := Stream.osStderr }

/-- The function `SamIndex` of the source. -/
def SamIndex (bampath : String) : World → Trace → Option GoError × Trace :=
  traced (StepCall.SamIndex bampath) (perform (Op.Run (SamIndex.cmd bampath)))

/-- The command built by `CreateDict` (source lines 114-116). -/
def CreateDict.cmd (fapath : String) : Cmd :=
  { exec.Command "picard-tools" ["CreateSequenceDictionary", "-R", fapath] with
    Stdout := Stream.osStdout, Stderr := Stream.osStderr }

/-- The function `CreateDict` of the source. -/
def CreateDict (fapath : String) : World → Trace → Option GoError × Trace :=
  traced (StepCall.CreateDict fapath) (perform (Op.Run (CreateDict.cmd fapath)))

/-- The string `memstr` of `HaplotypeCall` and `CombineGvcf`: `"-Xmx%vg"`. -/
def memstr (memoryGb : Int) : String :=
  "-Xmx" ++ toString memoryGb ++ "g"

/-- The command built by `HaplotypeCall` (source lines 121-133). -/
def HaplotypeCall.cmd (fapath bampath gvcfpath name : String) (memoryGb : Int) : Cmd :=
  { exec.Command "gatk"
      ["--java-options", memstr memoryGb, "HaplotypeCaller", "-R", fapath, "-I", bampath,
       "-O", gvcfpath, "--sample-name", name, "-ERC", "GVCF"] with
    Stdout := Stream.osStdout, Stderr := Stream.osStderr }

/-- The function `HaplotypeCall` of the source: a failure of the command is wrapped. -/
def HaplotypeCall (fapath bampath gvcfpath name : String) (memoryGb : Int) :
    World → Trace → Option GoError × Trace :=
  traced (StepCall.HaplotypeCall fapath bampath gvcfpath name memoryGb) fun w t =>
    match perform (Op.Run (HaplotypeCall.cmd fapath bampath gvcfpath name memoryGb)) w t with
    | (some e, t1) => (some (GoError.Wrapf "HaplotypeCall" e), t1)
    | (none, t1) => (none, t1)

/-! ## CombineGvcf -/

/-- The slice `combsl` of `CombineGvcf` after the loop of source lines 149-151. -/
def CombineGvcf.combsl (fapath gvcfoutpath : String) (memoryGb : Int)
    (gvcfpaths : List String) : List String :=
  gvcfpaths.foldl (fun combsl gvcfpath => combsl ++ ["--variant", gvcfpath])
    ["gatk", "--java-options", memstr memoryGb, "CombineGVCFs", "-R", fapath, "-O", gvcfoutpath]

/-- The command `comb` of `CombineGvcf` (source lines 152-154). -/
def CombineGvcf.comb (fapath gvcfoutpath : String) (memoryGb : Int)
    (gvcfpaths : List String) : Cmd :=
  let combsl := CombineGvcf.combsl fapath gvcfoutpath memoryGb gvcfpaths
  { exec.Command (combsl.headD "") (combsl.drop 1) with
    Stdout := Stream.osStdout, Stderr := Stream.osStderr }

/-- The command `geno` of `CombineGvcf` (source lines 158-165); the source assigns
neither `Stdout` nor `Stderr`. -/
def CombineGvcf.geno (fapath gvcfoutpath vcfoutpath : String) (memoryGb : Int) : Cmd :=
  exec.Command "gatk"
    ["--java-options", memstr memoryGb, "GenotypeGVCFs", "-R", fapath, "-V", gvcfoutpath,
     "-O", vcfoutpath]

/-- The function `CombineGvcf` of the source. -/
def CombineGvcf (fapath gvcfoutpath vcfoutpath : String) (memoryGb : Int)
    (gvcfpaths : List String) : World → Trace → Option GoError × Trace :=
  traced (StepCall.CombineGvcf fapath gvcfoutpath vcfoutpath memoryGb gvcfpaths) fun w t =>
    match perform (Op.Run (CombineGvcf.comb fapath gvcfoutpath memoryGb gvcfpaths)) w t with
    | (some e, t1) => (some e, t1)
    | (none, t1) =>
      match perform (Op.Run (CombineGvcf.geno fapath gvcfoutpath vcfoutpath memoryGb)) w t1 with
      | (some e, t2) => (some (GoError.Wrapf "GenotypeGVCFs" e), t2)
      | (none, t2) => (none, t2)

/-! ## BwaMem -/

/-- The command `bwaCmd` as it is when `StdoutPipe` is called on it (lines 48-49). -/
def BwaMem.bwaCmd0 (ref forward reverse : String) (threads : Int) : Cmd :=
  { exec.Command "bwa" ["mem", ref, forward, reverse, "-t", toString threads] with
    Stderr := Stream.osStderr }

/-- The command `bwaCmd` after `StdoutPipe` connected its standard output. -/
def BwaMem.bwaCmd (ref forward reverse : String) (threads : Int) : Cmd :=
  { BwaMem.bwaCmd0 ref forward reverse threads with
    Stdout := Stream.pipeWriter "bwaOut" }

/-- The command `viewCmd` as it is when `StdoutPipe` is called on it (lines 55-57). -/
def BwaMem.viewCmd0 : Cmd :=
  { exec.Command "samtools" ["view", "-bS"] with
    Stdin := Stream.pipeReader "bwaOut",
    Stderr := Stream.osStderr }

/-- The command `viewCmd` after `StdoutPipe` connected its standard output. -/
def BwaMem.viewCmd : Cmd :=
  { BwaMem.viewCmd0 with
    Stdout := Stream.pipeWriter "viewOut" }

/-- The command `sortCmd` (source lines 63-66). -/
def BwaMem.sortCmd (out : String) : Cmd :=
  { exec.Command "samtools" ["sort"] with
    Stderr := Stream.osStderr,
    Stdin := Stream.pipeReader "viewOut",
    Stdout := Stream.bufioWriter out }

/-- Source lines 48-88 of `BwaMem`: what runs between the registration of the two
deferred calls and the `return` that triggers them. -/
def BwaMem.main (ref forward reverse out : String) (threads : Int)
    (w : World) (t : Trace) : Option GoError × Trace :=
  match perform (Op.StdoutPipe (BwaMem.bwaCmd0 ref forward reverse threads)) w t with
  | (some err, t) => (some err, t)
  | (none, t) =>
  match perform (Op.StdoutPipe BwaMem.viewCmd0) w t with
  | (some err, t) => (some err, t)
  | (none, t) =>
  match perform (Op.Start (BwaMem.bwaCmd ref forward reverse threads)) w t with
  | (some e, t) => (some e, t)
  | (none, t) =>
  match perform (Op.Start BwaMem.viewCmd) w t with
  | (some e, t) => (some e, t)
  | (none, t) =>
  match perform (Op.Start (BwaMem.sortCmd out)) w t with
  | (some e, t) => (some e, t)
  | (none, t) =>
  match perform (Op.Wait (BwaMem.bwaCmd ref forward reverse threads)) w t with
  | (some e, t) => (some e, t)
  | (none, t) =>
  match perform (Op.Wait BwaMem.viewCmd) w t with
  | (some e, t) => (some e, t)
  | (none, t) =>
  match perform (Op.Wait (BwaMem.sortCmd out)) w t with
  | (some e, t) => (some e, t)
  | (none, t) => (none, t)

/-- The body of `BwaMem`.  A failed `os.Create` returns before any deferred call is
registered.  Otherwise the deferred calls run at the return, last registered first:
`bw.Flush()` and then `w.Close()`, each storing its error only if `err` is `nil`. -/
def BwaMem.body (ref forward reverse out : String) (threads : Int)
    (w : World) (t : Trace) : Option GoError × Trace :=
  match perform (Op.Create out) w t with
  | (some err, t) => (some err, t)
  | (none, t) =>
    match BwaMem.main ref forward reverse out threads w t with
    | (err, t) =>
      match perform (Op.Flush out) w t with
      | (e, t) =>
        let err := if err = none then e else err
        match perform (Op.Close out) w t with
        | (e, t) =>
          let err := if err = none then e else err
          (err, t)

/-- The function `BwaMem` of the source. -/
def BwaMem (ref forward reverse out : String) (threads : Int) :
    World → Trace → Option GoError × Trace :=
  traced (StepCall.BwaMem ref forward reverse out threads)
    (BwaMem.body ref forward reverse out threads)

/-! ## FullFQFMimic -/

/-- The local `bampath` of `FullFQFMimic` (source line 221). -/
def bampath (Outpre Name : String) : String := Outpre ++ "_" ++ Name ++ ".bam"

/-- The local `bampathrg` of `FullFQFMimic` (source line 226). -/
def bampathrg (Outpre Name : String) : String := Outpre ++ "_" ++ Name ++ "_rg.bam"

/-- The local `gvcfpath` of `FullFQFMimic` (source line 234). -/
def gvcfpath (Outpre Name : String) : String := Outpre ++ "_" ++ Name ++ ".g.vcf.gz"

/-- The local `goutpath` of `FullFQFMimic` (source line 241). -/
def goutpath (Outpre : String) : String := Outpre ++ ".g.vcf.gz"

/-- The local `outpath` of `FullFQFMimic` (source line 242). -/
def outpath (Outpre : String) : String := Outpre ++ ".vcf.gz"

/-- The loop of `FullFQFMimic` (source lines 220-239) over the remaining records,
with the slice `gvcfpaths` built so far.  It yields the error of an early `return`,
or `none` together with the final `gvcfpaths`. -/
def FullFQFMimic.loop (f : Flags) :
    List ReadSet → List String → World → Trace → (Option GoError × List String) × Trace
  | [], gvcfpaths, _, t => ((none, gvcfpaths), t)
  | set :: sets, gvcfpaths, w, t =>
    match BwaMem f.RefPath set.ForwardPath set.ReversePath (bampath f.Outpre set.Name)
        f.Threads w t with
    | (some e, t) => ((some e, gvcfpaths), t)
    | (none, t) =>
    match AddRG (bampath f.Outpre set.Name) (bampathrg f.Outpre set.Name) set.Name w t with
    | (some e, t) => ((some e, gvcfpaths), t)
    | (none, t) =>
    match SamIndex (bampathrg f.Outpre set.Name) w t with
    | (some e, t) => ((some e, gvcfpaths), t)
    | (none, t) =>
    match HaplotypeCall f.RefPath (bampathrg f.Outpre set.Name) (gvcfpath f.Outpre set.Name)
        set.Name f.MemoryGb w t with
    | (some e, t) => ((some e, gvcfpaths), t)
    | (none, t) =>
      FullFQFMimic.loop f sets (gvcfpaths ++ [gvcfpath f.Outpre set.Name]) w t

/-- The function `FullFQFMimic` of the source. -/
def FullFQFMimic (f : Flags) (w : World) (t : Trace) : Option GoError × Trace :=
  match BwaIndex f.RefPath w t with
  | (some e, t) => (some e, t)
  | (none, t) =>
  match Faidx f.RefPath w t with
  | (some e, t) => (some e, t)
  | (none, t) =>
  match CreateDict f.RefPath w t with
  | (some e, t) => (some e, t)
  | (none, t) =>
  match ParseReadSets f.SeqPairsPath w t with
  | ((_, some e), t) => (some e, t)
  | ((sets, none), t) =>
  match FullFQFMimic.loop f sets [] w t with
  | ((some e, _), t) => (some e, t)
  | ((none, gvcfpaths), t) =>
    CombineGvcf f.RefPath (goutpath f.Outpre) (outpath f.Outpre) f.MemoryGb gvcfpaths w t

/-! ## Vocabulary of the statements -/

/-- The first error in a list of results, `none` when there is none. -/
def firstFailure : List (Option GoError) → Option GoError
  | [] => none
  | some e :: _ => some e
  | none :: rest => firstFailure rest

/-- The results the world gives to a list of operations attempted one after the
other, starting after history `t`. -/
def outcomesAlong (w : World) : Trace → List Op → List (Option GoError)
  | _, [] => []
  | t, o :: rest => w.outcome t o :: outcomesAlong w (t ++ [Event.op o]) rest

/-- The operations of `BwaMem` in the order in which a run without failure attempts
them. -/
def BwaMem.opsInOrder (ref forward reverse out : String) (threads : Int) : List Op :=
  [ Op.Create out,
    Op.StdoutPipe (BwaMem.bwaCmd0 ref forward reverse threads),
    Op.StdoutPipe BwaMem.viewCmd0,
    Op.Start (BwaMem.bwaCmd ref forward reverse threads),
    Op.Start BwaMem.viewCmd,
    Op.Start (BwaMem.sortCmd out),
    Op.Wait (BwaMem.bwaCmd ref forward reverse threads),
    Op.Wait BwaMem.viewCmd,
    Op.Wait (BwaMem.sortCmd out),
    Op.Flush out,
    Op.Close out ]

/-- Attempt a list of operations one after the other and stop at the first error. -/
def runAll (w : World) : Trace → List Op → Option GoError × Trace
  | t, [] => (none, t)
  | t, o :: rest =>
    match perform o w t with
    | (some e, t1) => (some e, t1)
    | (none, t1) => runAll w t1 rest

/-- A state-passing function behaves as the step `s`: it adds to the trace one call
of `s` and one return of `s` carrying its result, and no other call or return. -/
def IsStep (s : StepCall) (p : World → Trace → Option GoError × Trace) : Prop :=
  ∀ w t, calls (p w t).2 = calls t ++ [s] ∧ rets (p w t).2 = rets t ++ [(s, (p w t).1)]

/-- The intermediate artifact paths that `FullFQFMimic` builds for one sample name. -/
def samplePaths (Outpre Name : String) : List String :=
  [bampath Outpre Name, bampathrg Outpre Name, gvcfpath Outpre Name]

/-- The four steps of one manifest record, in order. -/
def sampleSteps (f : Flags) (set : ReadSet) : List StepCall :=
  [ StepCall.BwaMem f.RefPath set.ForwardPath set.ReversePath (bampath f.Outpre set.Name)
      f.Threads,
    StepCall.AddRG (bampath f.Outpre set.Name) (bampathrg f.Outpre set.Name) set.Name,
    StepCall.SamIndex (bampathrg f.Outpre set.Name),
    StepCall.HaplotypeCall f.RefPath (bampathrg f.Outpre set.Name)
      (gvcfpath f.Outpre set.Name) set.Name f.MemoryGb ]

/-- The success sequence: the steps a run without failure invokes, in order, for
the manifest records `sets`. -/
def successSeq (f : Flags) (sets : List ReadSet) : List StepCall :=
  [ StepCall.BwaIndex f.RefPath, StepCall.Faidx f.RefPath, StepCall.CreateDict f.RefPath,
    StepCall.ParseReadSets f.SeqPairsPath ]
  ++ sets.flatMap (sampleSteps f)
  ++ [ StepCall.CombineGvcf f.RefPath (goutpath f.Outpre) (outpath f.Outpre) f.MemoryGb
        (sets.map fun set => gvcfpath f.Outpre set.Name) ]

/-- The events of a run without failure before the first manifest record is
processed: the three reference steps, each with the command it runs, and
`ParseReadSets` with the opening and the closing of the manifest. -/
def headTrace (f : Flags) : Trace :=
  [ Event.call (StepCall.BwaIndex f.RefPath),
    Event.op (Op.Run
      { Args := ["bwa", "index", f.RefPath],
        Stdin := Stream.null, Stdout := Stream.osStdout, Stderr := Stream.osStderr }),
    Event.ret (StepCall.BwaIndex f.RefPath) none,
    Event.call (StepCall.Faidx f.RefPath),
    Event.op (Op.Run
      { Args := ["samtools", "faidx", f.RefPath],
        Stdin := Stream.null, Stdout := Stream.osStdout, Stderr := Stream.osStderr }),
    Event.ret (StepCall.Faidx f.RefPath) none,
    Event.call (StepCall.CreateDict f.RefPath),
    Event.op (Op.Run
      { Args := ["picard-tools", "CreateSequenceDictionary", "-R", f.RefPath],
        Stdin := Stream.null, Stdout := Stream.osStdout, Stderr := Stream.osStderr }),
    Event.ret (StepCall.CreateDict f.RefPath) none,
    Event.call (StepCall.ParseReadSets f.SeqPairsPath),
    Event.op (Op.Open f.SeqPairsPath),
    Event.op (Op.Close f.SeqPairsPath),
    Event.ret (StepCall.ParseReadSets f.SeqPairsPath) none ]

/-- The events of the four steps of one manifest record in a run without failure,
with every operation and every command line written out. -/
def sampleTrace (f : Flags) (set : ReadSet) : Trace :=
  [ Event.call (StepCall.BwaMem f.RefPath set.ForwardPath set.ReversePath
      (f.Outpre ++ "_" ++ set.Name ++ ".bam") f.Threads),
    Event.op (Op.Create (f.Outpre ++ "_" ++ set.Name ++ ".bam")),
    Event.op (Op.StdoutPipe
      { Args := ["bwa", "mem", f.RefPath, set.ForwardPath, set.ReversePath, "-t",
          toString f.Threads],
        Stdin := Stream.null, Stdout := Stream.null, Stderr := Stream.osStderr }),
    Event.op (Op.StdoutPipe
      { Args := ["samtools", "view", "-bS"],
        Stdin := Stream.pipeReader "bwaOut", Stdout := Stream.null,
        Stderr := Stream.osStderr }),
    Event.op (Op.Start
      { Args := ["bwa", "mem", f.RefPath, set.ForwardPath, set.ReversePath, "-t",
          toString f.Threads],
        Stdin := Stream.null, Stdout := Stream.pipeWriter "bwaOut",
        Stderr := Stream.osStderr }),
    Event.op (Op.Start
      { Args := ["samtools", "view", "-bS"],
        Stdin := Stream.pipeReader "bwaOut", Stdout := Stream.pipeWriter "viewOut",
        Stderr := Stream.osStderr }),
    Event.op (Op.Start
      { Args := ["samtools", "sort"],
        Stdin := Stream.pipeReader "viewOut",
        Stdout := Stream.bufioWriter (f.Outpre ++ "_" ++ set.Name ++ ".bam"),
        Stderr := Stream.osStderr }),
    Event.op (Op.Wait
      { Args := ["bwa", "mem", f.RefPath, set.ForwardPath, set.ReversePath, "-t",
          toString f.Threads],
        Stdin := Stream.null, Stdout := Stream.pipeWriter "bwaOut",
        Stderr := Stream.osStderr }),
    Event.op (Op.Wait
      { Args := ["samtools", "view", "-bS"],
        Stdin := Stream.pipeReader "bwaOut", Stdout := Stream.pipeWriter "viewOut",
        Stderr := Stream.osStderr }),
    Event.op (Op.Wait
      { Args := ["samtools", "sort"],
        Stdin := Stream.pipeReader "viewOut",
        Stdout := Stream.bufioWriter (f.Outpre ++ "_" ++ set.Name ++ ".bam"),
        Stderr := Stream.osStderr }),
    Event.op (Op.Flush (f.Outpre ++ "_" ++ set.Name ++ ".bam")),
    Event.op (Op.Close (f.Outpre ++ "_" ++ set.Name ++ ".bam")),
    Event.ret (StepCall.BwaMem f.RefPath set.ForwardPath set.ReversePath
      (f.Outpre ++ "_" ++ set.Name ++ ".bam") f.Threads) none,
    Event.call (StepCall.AddRG (f.Outpre ++ "_" ++ set.Name ++ ".bam")
      (f.Outpre ++ "_" ++ set.Name ++ "_rg.bam") set.Name),
    Event.op (Op.Run
      { Args := ["samtools", "addreplacerg", "-r",
          "@RG\tID:" ++ set.Name ++ "\tSM:" ++ set.Name,
          f.Outpre ++ "_" ++ set.Name ++ ".bam", "-o",
          f.Outpre ++ "_" ++ set.Name ++ "_rg.bam"],
        Stdin := Stream.null, Stdout := Stream.osStdout, Stderr := Stream.osStderr }),
    Event.ret (StepCall.AddRG (f.Outpre ++ "_" ++ set.Name ++ ".bam")
      (f.Outpre ++ "_" ++ set.Name ++ "_rg.bam") set.Name) none,
    Event.call (StepCall.SamIndex (f.Outpre ++ "_" ++ set.Name ++ "_rg.bam")),
    Event.op (Op.Run
      { Args := ["samtools", "index", f.Outpre ++ "_" ++ set.Name ++ "_rg.bam"],
        Stdin := Stream.null, Stdout := Stream.osStdout, Stderr := Stream.osStderr }),
    Event.ret (StepCall.SamIndex (f.Outpre ++ "_" ++ set.Name ++ "_rg.bam")) none,
    Event.call (StepCall.HaplotypeCall f.RefPath (f.Outpre ++ "_" ++ set.Name ++ "_rg.bam")
      (f.Outpre ++ "_" ++ set.Name ++ ".g.vcf.gz") set.Name f.MemoryGb),
    Event.op (Op.Run
      { Args := ["gatk", "--java-options", "-Xmx" ++ toString f.MemoryGb ++ "g",
          "HaplotypeCaller", "-R", f.RefPath,
          "-I", f.Outpre ++ "_" ++ set.Name ++ "_rg.bam",
          "-O", f.Outpre ++ "_" ++ set.Name ++ ".g.vcf.gz",
          "--sample-name", set.Name, "-ERC", "GVCF"],
        Stdin := Stream.null, Stdout := Stream.osStdout, Stderr := Stream.osStderr }),
    Event.ret (StepCall.HaplotypeCall f.RefPath (f.Outpre ++ "_" ++ set.Name ++ "_rg.bam")
      (f.Outpre ++ "_" ++ set.Name ++ ".g.vcf.gz") set.Name f.MemoryGb) none ]

/-- The records that the manifest named by the flags holds for world `w`: what the
loop of `ParseReadSets` collects. -/
def manifestSets (f : Flags) (w : World) : List ReadSet :=
  (ParseReadSets.loop (w.manifest f.SeqPairsPath) []).1

/-- A run stops at the first error: `cs` are the invoked steps and `rs` the returned
ones of a run that was to go through `seq` and ended with result `res`. -/
def StopsAtFirstError (seq : List StepCall) (res : Option GoError)
    (cs : List StepCall) (rs : List (StepCall × Option GoError)) : Prop :=
  match res with
  | none => cs = seq ∧ rs = seq.map fun s => (s, none)
  | some e => ∃ pre s post, seq = pre ++ s :: post ∧ cs = pre ++ [s] ∧
      rs = (pre.map fun s => (s, none)) ++ [(s, some e)]

/-! ## Concrete worlds and inputs -/

/-- Flags of the example runs. -/
def exFlags : Flags :=
  { RefPath := "ref.fa", SeqPairsPath := "m.tsv", Outpre := "out", Threads := 4, MemoryGb := 8 }

/-- A world in which every operation succeeds and the manifest has two rows, the
second with an extra column. -/
def exWorld : World :=
  { outcome := fun _ _ => none,
    manifest := fun _ => [(["a", "a_1.fq", "a_2.fq"], none), (["b", "b_1.fq", "b_2.fq", "x"], none)] }

/-- Flags whose reference path is the string `--variant`. -/
def variantRefFlags : Flags :=
  { RefPath := "--variant", SeqPairsPath := "m.tsv", Outpre := "out", Threads := 4,
    MemoryGb := 8 }

/-- A world in which every operation succeeds and the manifest is empty. -/
def emptyWorld : World :=
  { outcome := fun _ _ => none, manifest := fun _ => [] }

/-- A world whose manifest has a full first row and a second row of two fields. -/
def shortRowWorld : World :=
  { outcome := fun _ _ => none,
    manifest := fun _ => [(["a", "a_1.fq", "a_2.fq"], none), (["b", "b_1.fq"], none),
      (["c", "c_1.fq", "c_2.fq"], none)] }

/-- A world whose first read of the manifest delivers three fields together with a
read error, and whose next read reports end of file. -/
def readErrorWorld : World :=
  { outcome := fun _ _ => none,
    manifest := fun _ => [(["a", "a_1.fq", "a_2.fq"], some (GoError.New "read m.tsv: input/output error"))] }

/-- A world with the manifest of `exWorld` in which the `gatk HaplotypeCaller`
command of sample `b` exits with an error and everything else succeeds. -/
def secondCallerFailsWorld : World :=
  { outcome := fun _ o =>
      if o = Op.Run (HaplotypeCall.cmd "ref.fa" "out_b_rg.bam" "out_b.g.vcf.gz" "b" 8)
      then some (GoError.New "exit status 1") else none,
    manifest := exWorld.manifest }

/-- A world in which only `bw.Flush` and `w.Close` of `out_a.bam` fail. -/
def flushCloseFailWorld : World :=
  { outcome := fun _ o =>
      if o = Op.Flush "out_a.bam" then some (GoError.New "flush: no space left on device")
      else if o = Op.Close "out_a.bam" then some (GoError.New "close: input/output error")
      else none,
    manifest := exWorld.manifest }

/-! ## Lemmas on traces -/

@[simp] theorem calls_append (t u : Trace) : calls (t ++ u) = calls t ++ calls u := by
  induction t with
  | nil => rfl
  | cons e t ih => cases e <;> simp [calls, ih]

@[simp] theorem rets_append (t u : Trace) : rets (t ++ u) = rets t ++ rets u := by
  induction t with
  | nil => rfl
  | cons e t ih => cases e <;> simp [rets, ih]

@[simp] theorem ops_append (t u : Trace) : ops (t ++ u) = ops t ++ ops u := by
  induction t with
  | nil => rfl
  | cons e t ih => cases e <;> simp [ops, ih]

/-! ## ParseReadSets -/

theorem ParseReadSets.loop_wellformed (reads : List ReadResult)
    (hrows : ∀ r ∈ reads, r.2 ≠ some GoError.EOF ∧ 3 ≤ r.1.length) (pairs : List ReadSet) :
    ∃ new, ParseReadSets.loop reads pairs = (pairs ++ new, none) ∧
      List.Forall₂ (fun r p => r.1.take 3 = [p.Name, p.ForwardPath, p.ReversePath])
        reads new := by
  induction reads generalizing pairs with
  | nil => exact ⟨[], by simp [ParseReadSets.loop]⟩
  | cons r rest ih =>
    obtain ⟨l, e⟩ := r
    have hr := hrows (l, e) (List.mem_cons_self _ _)
    have hrest : ∀ r ∈ rest, r.2 ≠ some GoError.EOF ∧ 3 ≤ r.1.length :=
      fun r hmem => hrows r (List.mem_cons_of_mem _ hmem)
    have hlen : ¬ l.length < 3 := by have := hr.2; simp at this; omega
    obtain ⟨new, hloop, hall⟩ :=
      ih hrest (pairs ++ [{ Name := l[0], ForwardPath := l[1], ReversePath := l[2] }])
    refine ⟨{ Name := l[0], ForwardPath := l[1], ReversePath := l[2] } :: new, ?_, ?_⟩
    · have he : e ≠ some GoError.EOF := hr.1
      simp [ParseReadSets.loop, he, hlen, hloop]
    · refine List.Forall₂.cons ?_ hall
      match l, hlen with
      | [], h => simp at h
      | [_], h => simp at h
      | [_, _], h => simp at h
      | a :: b :: c :: rest, _ => simp

theorem ParseReadSets.loop_short (pre post : List ReadResult) (l : List String)
    (e : Option GoError)
    (hpre : ∀ r ∈ pre, r.2 ≠ some GoError.EOF ∧ 3 ≤ r.1.length)
    (he : e ≠ some GoError.EOF) (hl : l.length < 3) (pairs : List ReadSet) :
    ParseReadSets.loop (pre ++ (l, e) :: post) pairs =
      ([], some (GoError.New
        ("ParseReadSets: len(l) " ++ toString l.length ++ " < 3; l " ++ fmtStrings l))) := by
  induction pre generalizing pairs with
  | nil => simp [ParseReadSets.loop, he, hl]
  | cons r rest ih =>
    obtain ⟨l1, e1⟩ := r
    have hr := hpre (l1, e1) (List.mem_cons_self _ _)
    have hrest : ∀ r ∈ rest, r.2 ≠ some GoError.EOF ∧ 3 ≤ r.1.length :=
      fun r hmem => hpre r (List.mem_cons_of_mem _ hmem)
    have hlen : ¬ l1.length < 3 := by have := hr.2; simp at this; omega
    have he1 : e1 ≠ some GoError.EOF := hr.1
    simp [ParseReadSets.loop, he1, hlen, ih hrest]

/-- C1.  Let the manifest open and close without error and let every read of it
deliver a row of at least three fields (and not end of file).  Then `ParseReadSets`
returns a nil error and records that correspond one to one, in order, to the rows:
the first three fields of the i-th row are Name, ForwardPath and ReversePath of the
i-th record; what follows the third field is dropped. -/
theorem ParseReadSets_wellformed (path : String) (w : World) (t : Trace)
    (hopen : w.outcome (t ++ [Event.call (StepCall.ParseReadSets path)]) (Op.Open path) = none)
    (hclose : w.outcome (t ++ [Event.call (StepCall.ParseReadSets path),
      Event.op (Op.Open path)]) (Op.Close path) = none)
    (hrows : ∀ r ∈ w.manifest path, r.2 ≠ some GoError.EOF ∧ 3 ≤ r.1.length) :
    ∃ pairs, (ParseReadSets path w t).1 = (pairs, none) ∧
      pairs.length = (w.manifest path).length ∧
      List.Forall₂ (fun r p => r.1.take 3 = [p.Name, p.ForwardPath, p.ReversePath])
        (w.manifest path) pairs := by
  obtain ⟨new, hloop, hall⟩ := ParseReadSets.loop_wellformed (w.manifest path) hrows []
  refine ⟨new, ?_, hall.length_eq.symm, hall⟩
  simp only [List.nil_append] at hloop
  simp [ParseReadSets, perform, hopen, hclose, hloop]

/-- Witness of C1: the two-row manifest of `exWorld`, whose second row has a fourth
column. -/
theorem ParseReadSets_wellformed_witness :
    ∃ pairs, (ParseReadSets "m.tsv" exWorld []).1 = (pairs, none) ∧
      pairs.length = (exWorld.manifest "m.tsv").length ∧
      List.Forall₂ (fun r p => r.1.take 3 = [p.Name, p.ForwardPath, p.ReversePath])
        (exWorld.manifest "m.tsv") pairs :=
  ParseReadSets_wellformed "m.tsv" exWorld [] rfl rfl (by decide)

/-- C2.  Let the manifest open, and let the first read that delivers fewer than
three fields deliver the row `l`, all reads before it delivering at least three.
Then `ParseReadSets` returns no records and the error
`ParseReadSets: len(l) <count> < 3; l <row>`; the records of the rows before `l`
are not returned. -/
theorem ParseReadSets_short_row (path : String) (w : World) (t : Trace)
    (pre post : List ReadResult) (l : List String) (e : Option GoError)
    (hopen : w.outcome (t ++ [Event.call (StepCall.ParseReadSets path)]) (Op.Open path) = none)
    (hman : w.manifest path = pre ++ (l, e) :: post)
    (hpre : ∀ r ∈ pre, r.2 ≠ some GoError.EOF ∧ 3 ≤ r.1.length)
    (he : e ≠ some GoError.EOF) (hl : l.length < 3) :
    (ParseReadSets path w t).1 =
      ([], some (GoError.New
        ("ParseReadSets: len(l) " ++ toString l.length ++ " < 3; l " ++ fmtStrings l))) := by
  have hloop := ParseReadSets.loop_short pre post l e hpre he hl []
  rw [← hman] at hloop
  simp [ParseReadSets, perform, hopen, hloop]

/-- Witness of C2: the second row of the manifest of `shortRowWorld` has two fields. -/
theorem ParseReadSets_short_row_witness :
    (ParseReadSets "m.tsv" shortRowWorld []).1 =
      ([], some (GoError.New "ParseReadSets: len(l) 2 < 3; l [b b_1.fq]")) :=
  ParseReadSets_short_row "m.tsv" shortRowWorld [] [(["a", "a_1.fq", "a_2.fq"], none)]
    [(["c", "c_1.fq", "c_2.fq"], none)] ["b", "b_1.fq"] none rfl rfl (by decide) (by decide)
    (by decide)

/-- C8, evaluated on the code.  The first read of the manifest delivers three fields
together with an error that is not end of file, the next read reports end of file:
`ParseReadSets` returns the record of the row and a nil error. -/
theorem ParseReadSets_read_error_ignored :
    (readErrorWorld.manifest "m.tsv").map Prod.snd =
        [some (GoError.New "read m.tsv: input/output error")] ∧
      (ParseReadSets "m.tsv" readErrorWorld []).1 =
        ([{ Name := "a", ForwardPath := "a_1.fq", ReversePath := "a_2.fq" }], none) := by
  decide

/-! ## BwaMem -/

theorem firstFailure_eq_none_iff (l : List (Option GoError)) :
    firstFailure l = none ↔ ∀ r ∈ l, r = none := by
  induction l with
  | nil => simp [firstFailure]
  | cons a l ih => cases a <;> simp [firstFailure, ih]

theorem firstFailure_singleton (x : Option GoError) : firstFailure [x] = x := by
  cases x <;> rfl

theorem firstFailure_append_of_some (a b : List (Option GoError)) (e : GoError)
    (h : firstFailure a = some e) : firstFailure (a ++ b) = some e := by
  induction a with
  | nil => simp [firstFailure] at h
  | cons x a ih => cases x <;> simp_all [firstFailure]

theorem firstFailure_append_of_none (a b : List (Option GoError))
    (h : firstFailure a = none) : firstFailure (a ++ b) = firstFailure b := by
  induction a with
  | nil => rfl
  | cons x a ih => cases x <;> simp_all [firstFailure]

theorem outcomesAlong_append (w : World) (t : Trace) (a b : List Op) :
    outcomesAlong w t (a ++ b) =
      outcomesAlong w t a ++ outcomesAlong w (t ++ a.map Event.op) b := by
  induction a generalizing t with
  | nil => simp [outcomesAlong]
  | cons o a ih => simp [outcomesAlong, ih]

theorem runAll_result (w : World) (t : Trace) (os : List Op) :
    (runAll w t os).1 = firstFailure (outcomesAlong w t os) := by
  induction os generalizing t with
  | nil => rfl
  | cons o os ih =>
    cases h : w.outcome t o <;> simp [runAll, perform, outcomesAlong, firstFailure, h, ih]

theorem runAll_trace_of_none (w : World) (t : Trace) (os : List Op)
    (h : (runAll w t os).1 = none) : (runAll w t os).2 = t ++ os.map Event.op := by
  induction os generalizing t with
  | nil => simp [runAll]
  | cons o os ih =>
    cases ho : w.outcome t o
    · simp only [runAll, perform, ho] at h ⊢
      rw [ih _ h]; simp
    · simp [runAll, perform, ho] at h

theorem runAll_calls (w : World) (t : Trace) (os : List Op) :
    calls (runAll w t os).2 = calls t ∧ rets (runAll w t os).2 = rets t := by
  induction os generalizing t with
  | nil => simp [runAll]
  | cons o os ih =>
    cases ho : w.outcome t o
    · simp only [runAll, perform, ho]
      rw [(ih _).1, (ih _).2]; simp [calls, rets]
    · simp [runAll, perform, ho, calls, rets]

theorem BwaMem.main_eq_runAll (ref forward reverse out : String) (threads : Int)
    (w : World) (t : Trace) :
    BwaMem.main ref forward reverse out threads w t =
      runAll w t
        [ Op.StdoutPipe (BwaMem.bwaCmd0 ref forward reverse threads),
          Op.StdoutPipe BwaMem.viewCmd0,
          Op.Start (BwaMem.bwaCmd ref forward reverse threads),
          Op.Start BwaMem.viewCmd,
          Op.Start (BwaMem.sortCmd out),
          Op.Wait (BwaMem.bwaCmd ref forward reverse threads),
          Op.Wait BwaMem.viewCmd,
          Op.Wait (BwaMem.sortCmd out) ] := rfl

theorem BwaMem.body_result (ref forward reverse out : String) (threads : Int)
    (w : World) (t : Trace) :
    (BwaMem.body ref forward reverse out threads w t).1 =
      firstFailure (outcomesAlong w t (BwaMem.opsInOrder ref forward reverse out threads)) := by
  have hsplit : BwaMem.opsInOrder ref forward reverse out threads =
      [Op.Create out] ++
      ([ Op.StdoutPipe (BwaMem.bwaCmd0 ref forward reverse threads),
          Op.StdoutPipe BwaMem.viewCmd0,
          Op.Start (BwaMem.bwaCmd ref forward reverse threads),
          Op.Start BwaMem.viewCmd,
          Op.Start (BwaMem.sortCmd out),
          Op.Wait (BwaMem.bwaCmd ref forward reverse threads),
          Op.Wait BwaMem.viewCmd,
          Op.Wait (BwaMem.sortCmd out) ] ++ [Op.Flush out, Op.Close out]) := rfl
  rw [hsplit, outcomesAlong_append]
  cases hc : w.outcome t (Op.Create out) with
  | some e => simp [BwaMem.body, perform, hc, outcomesAlong, firstFailure]
  | none =>
    rw [firstFailure_append_of_none _ _ (by simp [outcomesAlong, firstFailure, hc]),
      outcomesAlong_append]
    simp only [BwaMem.body, perform, hc, BwaMem.main_eq_runAll, List.map]
    have hres := runAll_result w (t ++ [Event.op (Op.Create out)])
      [ Op.StdoutPipe (BwaMem.bwaCmd0 ref forward reverse threads),
          Op.StdoutPipe BwaMem.viewCmd0,
          Op.Start (BwaMem.bwaCmd ref forward reverse threads),
          Op.Start BwaMem.viewCmd,
          Op.Start (BwaMem.sortCmd out),
          Op.Wait (BwaMem.bwaCmd ref forward reverse threads),
          Op.Wait BwaMem.viewCmd,
          Op.Wait (BwaMem.sortCmd out) ]
    cases hm : (runAll w (t ++ [Event.op (Op.Create out)])
      [ Op.StdoutPipe (BwaMem.bwaCmd0 ref forward reverse threads),
          Op.StdoutPipe BwaMem.viewCmd0,
          Op.Start (BwaMem.bwaCmd ref forward reverse threads),
          Op.Start BwaMem.viewCmd,
          Op.Start (BwaMem.sortCmd out),
          Op.Wait (BwaMem.bwaCmd ref forward reverse threads),
          Op.Wait BwaMem.viewCmd,
          Op.Wait (BwaMem.sortCmd out) ]).1 with
    | some e =>
      rw [hm] at hres
      rw [firstFailure_append_of_some _ _ e hres.symm]
      simp [hm]
    | none =>
      have htr := runAll_trace_of_none _ _ _ hm
      rw [hm] at hres
      rw [firstFailure_append_of_none _ _ hres.symm]
      simp only [hm, htr, List.map]
      simp only [outcomesAlong]
      generalize w.outcome _ (Op.Flush out) = a
      generalize w.outcome _ (Op.Close out) = b
      cases a <;> cases b <;> simp [firstFailure]

theorem BwaMem.body_calls (ref forward reverse out : String) (threads : Int)
    (w : World) (t : Trace) :
    calls (BwaMem.body ref forward reverse out threads w t).2 = calls t ∧
      rets (BwaMem.body ref forward reverse out threads w t).2 = rets t := by
  cases hc : w.outcome t (Op.Create out) with
  | some e => simp [BwaMem.body, perform, hc, calls, rets]
  | none =>
    simp only [BwaMem.body, perform, hc, BwaMem.main_eq_runAll]
    simp [runAll_calls, calls, rets]

/-- C6.  The error that `BwaMem` returns is the first error among the results of
create, stage-1 pipe, stage-2 pipe, the three starts, the three waits, flush and
close, taken in this order along the run; it is nil exactly when all eleven are. -/
theorem BwaMem_first_failure (ref forward reverse out : String) (threads : Int)
    (w : World) (t : Trace) :
    (BwaMem ref forward reverse out threads w t).1 =
        firstFailure (outcomesAlong w
          (t ++ [Event.call (StepCall.BwaMem ref forward reverse out threads)])
          (BwaMem.opsInOrder ref forward reverse out threads)) ∧
      ((BwaMem ref forward reverse out threads w t).1 = none ↔
        ∀ r ∈ outcomesAlong w
          (t ++ [Event.call (StepCall.BwaMem ref forward reverse out threads)])
          (BwaMem.opsInOrder ref forward reverse out threads), r = none) := by
  have h : (BwaMem ref forward reverse out threads w t).1 =
      firstFailure (outcomesAlong w
        (t ++ [Event.call (StepCall.BwaMem ref forward reverse out threads)])
        (BwaMem.opsInOrder ref forward reverse out threads)) := by
    rw [← BwaMem.body_result]; rfl
  exact ⟨h, by rw [h]; exact firstFailure_eq_none_iff _⟩

/-! ## Every function of the pipeline is one step of the trace -/

theorem traced_isStep (s : StepCall) (body : World → Trace → Option GoError × Trace)
    (h : ∀ w t, calls (body w t).2 = calls t ∧ rets (body w t).2 = rets t) :
    IsStep s (traced s body) := by
  intro w t
  obtain ⟨hc, hr⟩ := h w (t ++ [Event.call s])
  simp [traced, hc, hr, calls, rets]

theorem perform_quiet (o : Op) (w : World) (t : Trace) :
    calls (perform o w t).2 = calls t ∧ rets (perform o w t).2 = rets t := by
  simp [perform, calls, rets]

theorem BwaIndex_isStep (ref : String) : IsStep (StepCall.BwaIndex ref) (BwaIndex ref) :=
  traced_isStep _ _ (perform_quiet _)

theorem Faidx_isStep (fapath : String) : IsStep (StepCall.Faidx fapath) (Faidx fapath) :=
  traced_isStep _ _ (perform_quiet _)

theorem CreateDict_isStep (fapath : String) :
    IsStep (StepCall.CreateDict fapath) (CreateDict fapath) :=
  traced_isStep _ _ (perform_quiet _)

theorem AddRG_isStep (inpath outpath name : String) :
    IsStep (StepCall.AddRG inpath outpath name) (AddRG inpath outpath name) :=
  traced_isStep _ _ (perform_quiet _)

theorem SamIndex_isStep (bampath : String) :
    IsStep (StepCall.SamIndex bampath) (SamIndex bampath) :=
  traced_isStep _ _ (perform_quiet _)

theorem HaplotypeCall_isStep (fapath bampath gvcfpath name : String) (memoryGb : Int) :
    IsStep (StepCall.HaplotypeCall fapath bampath gvcfpath name memoryGb)
      (HaplotypeCall fapath bampath gvcfpath name memoryGb) := by
  refine traced_isStep _ _ ?_
  intro w t
  cases h : w.outcome t (Op.Run (HaplotypeCall.cmd fapath bampath gvcfpath name memoryGb)) <;>
    simp [perform, h, calls, rets]

theorem CombineGvcf_isStep (fapath gvcfoutpath vcfoutpath : String) (memoryGb : Int)
    (gvcfpaths : List String) :
    IsStep (StepCall.CombineGvcf fapath gvcfoutpath vcfoutpath memoryGb gvcfpaths)
      (CombineGvcf fapath gvcfoutpath vcfoutpath memoryGb gvcfpaths) := by
  refine traced_isStep _ _ ?_
  intro w t
  cases h : w.outcome t (Op.Run (CombineGvcf.comb fapath gvcfoutpath memoryGb gvcfpaths))
  · simp only [perform, h]
    generalize w.outcome _ (Op.Run (CombineGvcf.geno fapath gvcfoutpath vcfoutpath memoryGb)) = a
    cases a <;> simp [calls, rets]
  · simp [perform, h, calls, rets]

theorem BwaMem_isStep (ref forward reverse out : String) (threads : Int) :
    IsStep (StepCall.BwaMem ref forward reverse out threads)
      (BwaMem ref forward reverse out threads) :=
  traced_isStep _ _ (BwaMem.body_calls ref forward reverse out threads)

theorem ParseReadSets_isStep (path : String) (w : World) (t : Trace) :
    calls (ParseReadSets path w t).2 = calls t ++ [StepCall.ParseReadSets path] ∧
      rets (ParseReadSets path w t).2 =
        rets t ++ [(StepCall.ParseReadSets path, (ParseReadSets path w t).1.2)] := by
  cases h : w.outcome (t ++ [Event.call (StepCall.ParseReadSets path)]) (Op.Open path) <;>
    simp [ParseReadSets, perform, h, calls, rets]

theorem ParseReadSets_pairs (path : String) (w : World) (t : Trace)
    (h : (ParseReadSets path w t).1.2 = none) :
    (ParseReadSets path w t).1.1 = (ParseReadSets.loop (w.manifest path) []).1 := by
  cases ho : w.outcome (t ++ [Event.call (StepCall.ParseReadSets path)]) (Op.Open path)
  · simp [ParseReadSets, perform, ho]
  · simp [ParseReadSets, perform, ho] at h

/-! ## The trace of a step that returns nil -/

theorem traced_perform_trace (s : StepCall) (o : Op) (w : World) (t : Trace)
    (h : (traced s (perform o) w t).1 = none) :
    (traced s (perform o) w t).2 = t ++ [Event.call s, Event.op o, Event.ret s none] := by
  simp only [traced, perform] at h ⊢
  rw [h]; simp

theorem HaplotypeCall_trace_of_none (fapath bampath gvcfpath name : String) (memoryGb : Int)
    (w : World) (t : Trace)
    (h : (HaplotypeCall fapath bampath gvcfpath name memoryGb w t).1 = none) :
    (HaplotypeCall fapath bampath gvcfpath name memoryGb w t).2 =
      t ++ [ Event.call (StepCall.HaplotypeCall fapath bampath gvcfpath name memoryGb),
        Event.op (Op.Run (HaplotypeCall.cmd fapath bampath gvcfpath name memoryGb)),
        Event.ret (StepCall.HaplotypeCall fapath bampath gvcfpath name memoryGb) none ] := by
  revert h
  simp only [HaplotypeCall, traced, perform]
  cases h1 : w.outcome
      (t ++ [Event.call (StepCall.HaplotypeCall fapath bampath gvcfpath name memoryGb)])
      (Op.Run (HaplotypeCall.cmd fapath bampath gvcfpath name memoryGb)) <;> simp

theorem BwaMem_trace_of_none (ref forward reverse out : String) (threads : Int)
    (w : World) (t : Trace)
    (h : (BwaMem ref forward reverse out threads w t).1 = none) :
    (BwaMem ref forward reverse out threads w t).2 =
      t ++ Event.call (StepCall.BwaMem ref forward reverse out threads) ::
        ((BwaMem.opsInOrder ref forward reverse out threads).map Event.op ++
          [Event.ret (StepCall.BwaMem ref forward reverse out threads) none]) := by
  revert h
  simp only [BwaMem, traced, BwaMem.body, perform, BwaMem.main_eq_runAll]
  cases hc : w.outcome (t ++ [Event.call (StepCall.BwaMem ref forward reverse out threads)])
      (Op.Create out)
  swap
  · simp
  simp only []
  cases hm : (runAll w (t ++ [Event.call (StepCall.BwaMem ref forward reverse out threads)] ++
      [Event.op (Op.Create out)])
      [ Op.StdoutPipe (BwaMem.bwaCmd0 ref forward reverse threads),
        Op.StdoutPipe BwaMem.viewCmd0,
        Op.Start (BwaMem.bwaCmd ref forward reverse threads),
        Op.Start BwaMem.viewCmd,
        Op.Start (BwaMem.sortCmd out),
        Op.Wait (BwaMem.bwaCmd ref forward reverse threads),
        Op.Wait BwaMem.viewCmd,
        Op.Wait (BwaMem.sortCmd out) ]).1
  swap
  · simp [hm]
  have htr := runAll_trace_of_none _ _ _ hm
  simp only [hm, htr, if_true]
  generalize w.outcome _ (Op.Flush out) = a
  cases a
  swap
  · simp
  simp only [if_true]
  generalize w.outcome _ (Op.Close out) = b
  cases b
  swap
  · simp
  intro _
  simp [BwaMem.opsInOrder]

theorem ParseReadSets_trace_of_none (path : String) (w : World) (t : Trace)
    (h : (ParseReadSets path w t).1.2 = none) :
    (ParseReadSets path w t).2 =
      t ++ [ Event.call (StepCall.ParseReadSets path), Event.op (Op.Open path),
        Event.op (Op.Close path), Event.ret (StepCall.ParseReadSets path) none ] := by
  revert h
  cases ho : w.outcome (t ++ [Event.call (StepCall.ParseReadSets path)]) (Op.Open path)
  · simp only [ParseReadSets, perform, ho]
    intro h
    rw [h]; simp
  · simp [ParseReadSets, perform, ho]

/-! ## Runs that stop at the first error -/

theorem StopsAtFirstError.single (s : StepCall) (r : Option GoError) :
    StopsAtFirstError [s] r [s] [(s, r)] := by
  cases r with
  | none => simp [StopsAtFirstError]
  | some e => exact ⟨[], s, [], by simp⟩

theorem StopsAtFirstError.cons_fail (s : StepCall) (seq : List StepCall) (e : GoError) :
    StopsAtFirstError (s :: seq) (some e) [s] [(s, some e)] :=
  ⟨[], s, seq, by simp⟩

theorem StopsAtFirstError.cons_ok (s : StepCall) (seq : List StepCall) (res : Option GoError)
    (cs : List StepCall) (rs : List (StepCall × Option GoError))
    (h : StopsAtFirstError seq res cs rs) :
    StopsAtFirstError (s :: seq) res (s :: cs) ((s, none) :: rs) := by
  cases res with
  | none =>
    obtain ⟨h1, h2⟩ := h
    simp [StopsAtFirstError, h1, h2]
  | some e =>
    obtain ⟨pre, s1, post, h1, h2, h3⟩ := h
    exact ⟨s :: pre, s1, post, by simp [h1], by simp [h2], by simp [h3]⟩

theorem StopsAtFirstError.append_fail (seq1 seq2 : List StepCall) (e : GoError)
    (cs : List StepCall) (rs : List (StepCall × Option GoError))
    (h : StopsAtFirstError seq1 (some e) cs rs) :
    StopsAtFirstError (seq1 ++ seq2) (some e) cs rs := by
  obtain ⟨pre, s1, post, h1, h2, h3⟩ := h
  exact ⟨pre, s1, post ++ seq2, by simp [h1], h2, h3⟩

theorem StopsAtFirstError.append_ok (seq1 seq2 : List StepCall) (res : Option GoError)
    (cs1 cs2 : List StepCall) (rs1 rs2 : List (StepCall × Option GoError))
    (h1 : StopsAtFirstError seq1 none cs1 rs1) (h2 : StopsAtFirstError seq2 res cs2 rs2) :
    StopsAtFirstError (seq1 ++ seq2) res (cs1 ++ cs2) (rs1 ++ rs2) := by
  obtain ⟨hc, hr⟩ := h1
  subst hc hr
  induction cs1 with
  | nil => simpa using h2
  | cons s cs1 ih => exact StopsAtFirstError.cons_ok _ _ _ _ _ ih

/-! ## FullFQFMimic -/

theorem FullFQFMimic.loop_run (f : Flags) (w : World) (sets : List ReadSet)
    (gv : List String) (t : Trace) :
    ∃ cs rs,
      calls (FullFQFMimic.loop f sets gv w t).2 = calls t ++ cs ∧
      rets (FullFQFMimic.loop f sets gv w t).2 = rets t ++ rs ∧
      StopsAtFirstError (sets.flatMap (sampleSteps f))
        (FullFQFMimic.loop f sets gv w t).1.1 cs rs ∧
      ((FullFQFMimic.loop f sets gv w t).1.1 = none →
        (FullFQFMimic.loop f sets gv w t).1.2 =
          gv ++ sets.map fun set => gvcfpath f.Outpre set.Name) := by
  induction sets generalizing gv t with
  | nil => exact ⟨[], [], by simp [FullFQFMimic.loop, StopsAtFirstError]⟩
  | cons set sets ih =>
    have hseq : (set :: sets).flatMap (sampleSteps f) =
        StepCall.BwaMem f.RefPath set.ForwardPath set.ReversePath (bampath f.Outpre set.Name)
          f.Threads ::
        StepCall.AddRG (bampath f.Outpre set.Name) (bampathrg f.Outpre set.Name) set.Name ::
        StepCall.SamIndex (bampathrg f.Outpre set.Name) ::
        StepCall.HaplotypeCall f.RefPath (bampathrg f.Outpre set.Name)
          (gvcfpath f.Outpre set.Name) set.Name f.MemoryGb ::
        sets.flatMap (sampleSteps f) := rfl
    rw [hseq]
    obtain ⟨hc1, hr1⟩ := BwaMem_isStep f.RefPath set.ForwardPath set.ReversePath
      (bampath f.Outpre set.Name) f.Threads w t
    rcases h1 : BwaMem f.RefPath set.ForwardPath set.ReversePath (bampath f.Outpre set.Name)
      f.Threads w t with ⟨_ | e1, t1⟩
    swap
    · rw [h1] at hc1 hr1
      simp only [FullFQFMimic.loop, h1]
      exact ⟨_, _, hc1, hr1, StopsAtFirstError.cons_fail _ _ _, by simp⟩
    rw [h1] at hc1 hr1
    obtain ⟨hc2, hr2⟩ := AddRG_isStep (bampath f.Outpre set.Name) (bampathrg f.Outpre set.Name)
      set.Name w t1
    rcases h2 : AddRG (bampath f.Outpre set.Name) (bampathrg f.Outpre set.Name)
      set.Name w t1 with ⟨_ | e2, t2⟩
    swap
    · rw [h2] at hc2 hr2
      simp only [FullFQFMimic.loop, h1, h2]
      simp only [hc1, hr1, List.append_assoc] at hc2 hr2
      exact ⟨_, _, hc2, hr2,
        StopsAtFirstError.cons_ok _ _ _ _ _ (StopsAtFirstError.cons_fail _ _ _), by simp⟩
    rw [h2] at hc2 hr2
    simp only [hc1, hr1, List.append_assoc] at hc2 hr2
    obtain ⟨hc3, hr3⟩ := SamIndex_isStep (bampathrg f.Outpre set.Name) w t2
    rcases h3 : SamIndex (bampathrg f.Outpre set.Name) w t2 with ⟨_ | e3, t3⟩
    swap
    · rw [h3] at hc3 hr3
      simp only [FullFQFMimic.loop, h1, h2, h3]
      simp only [hc2, hr2, List.append_assoc] at hc3 hr3
      exact ⟨_, _, hc3, hr3,
        StopsAtFirstError.cons_ok _ _ _ _ _ (StopsAtFirstError.cons_ok _ _ _ _ _
          (StopsAtFirstError.cons_fail _ _ _)), by simp⟩
    rw [h3] at hc3 hr3
    simp only [hc2, hr2, List.append_assoc] at hc3 hr3
    obtain ⟨hc4, hr4⟩ := HaplotypeCall_isStep f.RefPath (bampathrg f.Outpre set.Name)
      (gvcfpath f.Outpre set.Name) set.Name f.MemoryGb w t3
    rcases h4 : HaplotypeCall f.RefPath (bampathrg f.Outpre set.Name)
      (gvcfpath f.Outpre set.Name) set.Name f.MemoryGb w t3 with ⟨_ | e4, t4⟩
    swap
    · rw [h4] at hc4 hr4
      simp only [FullFQFMimic.loop, h1, h2, h3, h4]
      simp only [hc3, hr3, List.append_assoc] at hc4 hr4
      exact ⟨_, _, hc4, hr4,
        StopsAtFirstError.cons_ok _ _ _ _ _ (StopsAtFirstError.cons_ok _ _ _ _ _
          (StopsAtFirstError.cons_ok _ _ _ _ _ (StopsAtFirstError.cons_fail _ _ _))), by simp⟩
    rw [h4] at hc4 hr4
    simp only [hc3, hr3, List.append_assoc] at hc4 hr4
    obtain ⟨cs, rs, hc, hr, hs, hg⟩ := ih (gv ++ [gvcfpath f.Outpre set.Name]) t4
    simp only [FullFQFMimic.loop, h1, h2, h3, h4]
    refine ⟨_, _, ?_, ?_, StopsAtFirstError.cons_ok _ _ _ _ _ (StopsAtFirstError.cons_ok _ _ _ _ _
          (StopsAtFirstError.cons_ok _ _ _ _ _ (StopsAtFirstError.cons_ok _ _ _ _ _ hs))), ?_⟩
    · rw [hc, hc4]; simp
    · rw [hr, hr4]; simp
    · intro hn
      rw [hg hn]; simp

theorem FullFQFMimic.loop_trace_of_none (f : Flags) (w : World) (sets : List ReadSet)
    (gv : List String) (t : Trace)
    (h : (FullFQFMimic.loop f sets gv w t).1.1 = none) :
    (FullFQFMimic.loop f sets gv w t).2 = t ++ sets.flatMap (sampleTrace f) := by
  induction sets generalizing gv t with
  | nil => simp [FullFQFMimic.loop]
  | cons set sets ih =>
    have e1 := BwaMem_trace_of_none f.RefPath set.ForwardPath set.ReversePath
      (bampath f.Outpre set.Name) f.Threads w t
    rcases h1 : BwaMem f.RefPath set.ForwardPath set.ReversePath (bampath f.Outpre set.Name)
      f.Threads w t with ⟨_ | e, t1⟩
    swap
    · simp [FullFQFMimic.loop, h1] at h
    rw [h1] at e1
    have e2 := traced_perform_trace
      (StepCall.AddRG (bampath f.Outpre set.Name) (bampathrg f.Outpre set.Name) set.Name)
      (Op.Run (AddRG.cmd (bampath f.Outpre set.Name) (bampathrg f.Outpre set.Name) set.Name))
      w t1
    rcases h2 : AddRG (bampath f.Outpre set.Name) (bampathrg f.Outpre set.Name)
      set.Name w t1 with ⟨_ | e, t2⟩
    swap
    · simp [FullFQFMimic.loop, h1, h2] at h
    have h2' : traced
        (StepCall.AddRG (bampath f.Outpre set.Name) (bampathrg f.Outpre set.Name) set.Name)
        (perform (Op.Run (AddRG.cmd (bampath f.Outpre set.Name) (bampathrg f.Outpre set.Name)
          set.Name))) w t1 = (none, t2) := h2
    rw [h2'] at e2
    have e3 := traced_perform_trace (StepCall.SamIndex (bampathrg f.Outpre set.Name))
      (Op.Run (SamIndex.cmd (bampathrg f.Outpre set.Name))) w t2
    rcases h3 : SamIndex (bampathrg f.Outpre set.Name) w t2 with ⟨_ | e, t3⟩
    swap
    · simp [FullFQFMimic.loop, h1, h2, h3] at h
    have h3' : traced (StepCall.SamIndex (bampathrg f.Outpre set.Name))
        (perform (Op.Run (SamIndex.cmd (bampathrg f.Outpre set.Name)))) w t2 = (none, t3) := h3
    rw [h3'] at e3
    have e4 := HaplotypeCall_trace_of_none f.RefPath (bampathrg f.Outpre set.Name)
      (gvcfpath f.Outpre set.Name) set.Name f.MemoryGb w t3
    rcases h4 : HaplotypeCall f.RefPath (bampathrg f.Outpre set.Name)
      (gvcfpath f.Outpre set.Name) set.Name f.MemoryGb w t3 with ⟨_ | e, t4⟩
    swap
    · simp [FullFQFMimic.loop, h1, h2, h3, h4] at h
    rw [h4] at e4
    simp only [FullFQFMimic.loop, h1, h2, h3, h4] at h ⊢
    rw [ih _ _ h]
    have e1' : t1 = _ := e1 rfl
    have e2' : t2 = _ := e2 rfl
    have e3' : t3 = _ := e3 rfl
    have e4' : t4 = _ := e4 rfl
    rw [e4', e3', e2', e1']
    simp only [List.flatMap_cons, List.append_assoc]
    rfl

theorem FullFQFMimic_cases (f : Flags) (w : World) (t : Trace) :
    (∃ t5,
      t5 = t ++ headTrace f ++ (manifestSets f w).flatMap (sampleTrace f) ∧
      calls t5 = calls t ++
        (StepCall.BwaIndex f.RefPath :: StepCall.Faidx f.RefPath ::
          StepCall.CreateDict f.RefPath :: StepCall.ParseReadSets f.SeqPairsPath ::
          (manifestSets f w).flatMap (sampleSteps f)) ∧
      rets t5 = rets t ++
        (StepCall.BwaIndex f.RefPath :: StepCall.Faidx f.RefPath ::
          StepCall.CreateDict f.RefPath :: StepCall.ParseReadSets f.SeqPairsPath ::
          (manifestSets f w).flatMap (sampleSteps f)).map (fun s => (s, none)) ∧
      FullFQFMimic f w t =
        CombineGvcf f.RefPath (goutpath f.Outpre) (outpath f.Outpre) f.MemoryGb
          ((manifestSets f w).map fun set => gvcfpath f.Outpre set.Name) w t5) ∨
    (∃ e cs rs,
      (FullFQFMimic f w t).1 = some e ∧
      calls (FullFQFMimic f w t).2 = calls t ++ cs ∧
      rets (FullFQFMimic f w t).2 = rets t ++ rs ∧
      StopsAtFirstError
        (StepCall.BwaIndex f.RefPath :: StepCall.Faidx f.RefPath ::
          StepCall.CreateDict f.RefPath :: StepCall.ParseReadSets f.SeqPairsPath ::
          (manifestSets f w).flatMap (sampleSteps f)) (some e) cs rs) := by
  obtain ⟨hc1, hr1⟩ := BwaIndex_isStep f.RefPath w t
  rcases h1 : BwaIndex f.RefPath w t with ⟨_ | e1, t1⟩
  swap
  · rw [h1] at hc1 hr1
    right
    simp only [FullFQFMimic, h1]
    exact ⟨_, _, _, rfl, hc1, hr1, StopsAtFirstError.cons_fail _ _ _⟩
  rw [h1] at hc1 hr1
  obtain ⟨hc2, hr2⟩ := Faidx_isStep f.RefPath w t1
  rcases h2 : Faidx f.RefPath w t1 with ⟨_ | e2, t2⟩
  swap
  · rw [h2] at hc2 hr2
    right
    simp only [FullFQFMimic, h1, h2]
    simp only [hc1, hr1, List.append_assoc] at hc2 hr2
    exact ⟨_, _, _, rfl, hc2, hr2,
      StopsAtFirstError.cons_ok _ _ _ _ _ (StopsAtFirstError.cons_fail _ _ _)⟩
  rw [h2] at hc2 hr2
  simp only [hc1, hr1, List.append_assoc] at hc2 hr2
  obtain ⟨hc3, hr3⟩ := CreateDict_isStep f.RefPath w t2
  rcases h3 : CreateDict f.RefPath w t2 with ⟨_ | e3, t3⟩
  swap
  · rw [h3] at hc3 hr3
    right
    simp only [FullFQFMimic, h1, h2, h3]
    simp only [hc2, hr2, List.append_assoc] at hc3 hr3
    exact ⟨_, _, _, rfl, hc3, hr3,
      StopsAtFirstError.cons_ok _ _ _ _ _ (StopsAtFirstError.cons_ok _ _ _ _ _
        (StopsAtFirstError.cons_fail _ _ _))⟩
  rw [h3] at hc3 hr3
  simp only [hc2, hr2, List.append_assoc] at hc3 hr3
  obtain ⟨hc4, hr4⟩ := ParseReadSets_isStep f.SeqPairsPath w t3
  have hp := ParseReadSets_pairs f.SeqPairsPath w t3
  rcases h4 : ParseReadSets f.SeqPairsPath w t3 with ⟨⟨sets, _ | e4⟩, t4⟩
  swap
  · rw [h4] at hc4 hr4
    right
    simp only [FullFQFMimic, h1, h2, h3, h4]
    simp only [hc3, hr3, List.append_assoc] at hc4 hr4
    exact ⟨_, _, _, rfl, hc4, hr4,
      StopsAtFirstError.cons_ok _ _ _ _ _ (StopsAtFirstError.cons_ok _ _ _ _ _
        (StopsAtFirstError.cons_ok _ _ _ _ _ (StopsAtFirstError.cons_fail _ _ _)))⟩
  rw [h4] at hc4 hr4 hp
  simp only [hc3, hr3, List.append_assoc] at hc4 hr4
  have hsets : sets = manifestSets f w := hp rfl
  subst hsets
  obtain ⟨cs, rs, hc, hr, hs, hg⟩ := FullFQFMimic.loop_run f w (manifestSets f w) [] t4
  rcases h5 : FullFQFMimic.loop f (manifestSets f w) [] w t4 with ⟨⟨_ | e5, gv⟩, t5⟩
  swap
  · rw [h5] at hc hr hs
    right
    simp only [FullFQFMimic, h1, h2, h3, h4, h5]
    refine ⟨_, _, _, rfl, ?_, ?_, StopsAtFirstError.cons_ok _ _ _ _ _
      (StopsAtFirstError.cons_ok _ _ _ _ _ (StopsAtFirstError.cons_ok _ _ _ _ _
        (StopsAtFirstError.cons_ok _ _ _ _ _ hs)))⟩
    · show calls t5 = _
      rw [hc, hc4]; simp
    · show rets t5 = _
      rw [hr, hr4]; simp
  rw [h5] at hc hr hs hg
  have hgv : gv = (manifestSets f w).map fun set => gvcfpath f.Outpre set.Name := by
    simpa using hg rfl
  subst hgv
  left
  obtain ⟨hcs, hrs⟩ := hs
  refine ⟨t5, ?_, ?_, ?_, ?_⟩
  · have e1 := traced_perform_trace (StepCall.BwaIndex f.RefPath)
      (Op.Run (BwaIndex.cmd f.RefPath)) w t
    have h1' : traced (StepCall.BwaIndex f.RefPath)
        (perform (Op.Run (BwaIndex.cmd f.RefPath))) w t = (none, t1) := h1
    rw [h1'] at e1
    have e2 := traced_perform_trace (StepCall.Faidx f.RefPath)
      (Op.Run (Faidx.cmd f.RefPath)) w t1
    have h2' : traced (StepCall.Faidx f.RefPath)
        (perform (Op.Run (Faidx.cmd f.RefPath))) w t1 = (none, t2) := h2
    rw [h2'] at e2
    have e3 := traced_perform_trace (StepCall.CreateDict f.RefPath)
      (Op.Run (CreateDict.cmd f.RefPath)) w t2
    have h3' : traced (StepCall.CreateDict f.RefPath)
        (perform (Op.Run (CreateDict.cmd f.RefPath))) w t2 = (none, t3) := h3
    rw [h3'] at e3
    have e4 := ParseReadSets_trace_of_none f.SeqPairsPath w t3
    rw [h4] at e4
    have e5 := FullFQFMimic.loop_trace_of_none f w (manifestSets f w) [] t4
    rw [h5] at e5
    have e1' : t1 = _ := e1 rfl
    have e2' : t2 = _ := e2 rfl
    have e3' : t3 = _ := e3 rfl
    have e4' : t4 = _ := e4 rfl
    have e5' : t5 = _ := e5 rfl
    rw [e5', e4', e3', e2', e1']
    simp only [List.append_assoc]
    rfl
  · show calls t5 = _
    rw [hc, hc4, hcs]; simp
  · show rets t5 = _
    rw [hr, hr4, hrs]; simp
  · simp only [FullFQFMimic, h1, h2, h3, h4, h5]

theorem successSeq_eq (f : Flags) (sets : List ReadSet) :
    successSeq f sets =
      (StepCall.BwaIndex f.RefPath :: StepCall.Faidx f.RefPath ::
        StepCall.CreateDict f.RefPath :: StepCall.ParseReadSets f.SeqPairsPath ::
        sets.flatMap (sampleSteps f)) ++
      [StepCall.CombineGvcf f.RefPath (goutpath f.Outpre) (outpath f.Outpre) f.MemoryGb
        (sets.map fun set => gvcfpath f.Outpre set.Name)] := by
  simp [successSeq]

theorem FullFQFMimic_run (f : Flags) (w : World) (t : Trace) :
    ∃ cs rs,
      calls (FullFQFMimic f w t).2 = calls t ++ cs ∧
      rets (FullFQFMimic f w t).2 = rets t ++ rs ∧
      StopsAtFirstError (successSeq f (manifestSets f w)) (FullFQFMimic f w t).1 cs rs := by
  rw [successSeq_eq]
  rcases FullFQFMimic_cases f w t with ⟨t5, _, hc, hr, heq⟩ | ⟨e, cs, rs, he, hc, hr, hs⟩
  · obtain ⟨hc6, hr6⟩ := CombineGvcf_isStep f.RefPath (goutpath f.Outpre) (outpath f.Outpre)
      f.MemoryGb ((manifestSets f w).map fun set => gvcfpath f.Outpre set.Name) w t5
    rw [heq]
    refine ⟨_, _, ?_, ?_, StopsAtFirstError.append_ok _ _ _ _ _ _ _ ⟨rfl, rfl⟩
      (StopsAtFirstError.single _ _)⟩
    · rw [hc6, hc]; simp
    · rw [hr6, hr]; simp
  · rw [he]
    exact ⟨cs, rs, hc, hr, StopsAtFirstError.append_fail _ _ _ _ _ hs⟩

theorem CombineGvcf_trace_of_none (fapath gvcfoutpath vcfoutpath : String) (memoryGb : Int)
    (gvcfpaths : List String) (w : World) (t : Trace)
    (h : (CombineGvcf fapath gvcfoutpath vcfoutpath memoryGb gvcfpaths w t).1 = none) :
    (CombineGvcf fapath gvcfoutpath vcfoutpath memoryGb gvcfpaths w t).2 =
      t ++ [ Event.call (StepCall.CombineGvcf fapath gvcfoutpath vcfoutpath memoryGb gvcfpaths),
        Event.op (Op.Run (CombineGvcf.comb fapath gvcfoutpath memoryGb gvcfpaths)),
        Event.op (Op.Run (CombineGvcf.geno fapath gvcfoutpath vcfoutpath memoryGb)),
        Event.ret (StepCall.CombineGvcf fapath gvcfoutpath vcfoutpath memoryGb gvcfpaths)
          none ] := by
  revert h
  simp only [CombineGvcf, traced, perform]
  cases h1 : w.outcome
      (t ++ [Event.call (StepCall.CombineGvcf fapath gvcfoutpath vcfoutpath memoryGb gvcfpaths)])
      (Op.Run (CombineGvcf.comb fapath gvcfoutpath memoryGb gvcfpaths))
  · simp only []
    generalize w.outcome _ (Op.Run (CombineGvcf.geno fapath gvcfoutpath vcfoutpath memoryGb)) = a
    cases a <;> simp
  · simp

theorem CombineGvcf_runs_comb (fapath gvcfoutpath vcfoutpath : String) (memoryGb : Int)
    (gvcfpaths : List String) (w : World) (t : Trace) :
    Op.Run (CombineGvcf.comb fapath gvcfoutpath memoryGb gvcfpaths) ∈
      ops (CombineGvcf fapath gvcfoutpath vcfoutpath memoryGb gvcfpaths w t).2 := by
  simp only [CombineGvcf, traced, perform]
  cases h1 : w.outcome
      (t ++ [Event.call (StepCall.CombineGvcf fapath gvcfoutpath vcfoutpath memoryGb gvcfpaths)])
      (Op.Run (CombineGvcf.comb fapath gvcfoutpath memoryGb gvcfpaths))
  · simp only []
    generalize w.outcome _ (Op.Run (CombineGvcf.geno fapath gvcfoutpath vcfoutpath memoryGb)) = a
    cases a <;> simp [ops]
  · simp [ops]

theorem CombineGvcf.combsl_eq (fapath gvcfoutpath : String) (memoryGb : Int)
    (gvcfpaths : List String) :
    CombineGvcf.combsl fapath gvcfoutpath memoryGb gvcfpaths =
      ["gatk", "--java-options", memstr memoryGb, "CombineGVCFs", "-R", fapath, "-O",
        gvcfoutpath] ++ gvcfpaths.flatMap fun gvcfpath => ["--variant", gvcfpath] := by
  unfold CombineGvcf.combsl
  generalize ["gatk", "--java-options", memstr memoryGb, "CombineGVCFs", "-R", fapath, "-O",
    gvcfoutpath] = base
  induction gvcfpaths generalizing base with
  | nil => simp
  | cons p ps ih => simp [ih]

theorem CombineGvcf.comb_eq (fapath gvcfoutpath : String) (memoryGb : Int)
    (gvcfpaths : List String) :
    CombineGvcf.comb fapath gvcfoutpath memoryGb gvcfpaths =
      { Args := ["gatk", "--java-options", "-Xmx" ++ toString memoryGb ++ "g", "CombineGVCFs",
          "-R", fapath, "-O", gvcfoutpath] ++
          gvcfpaths.flatMap fun gvcfpath => ["--variant", gvcfpath],
        Stdin := Stream.null, Stdout := Stream.osStdout, Stderr := Stream.osStderr } := by
  simp [CombineGvcf.comb, CombineGvcf.combsl_eq, exec.Command, memstr]

/-- C3.  Whenever `FullFQFMimic` returns an error `e`, the steps it invoked are an
initial part `pre ++ [s]` of the success sequence, every step of `pre` returned nil,
the last invoked step `s` returned `e`, and nothing was invoked after `s`. -/
theorem FullFQFMimic_first_error (f : Flags) (w : World) (e : GoError)
    (h : (FullFQFMimic f w []).1 = some e) :
    ∃ pre s post,
      successSeq f (manifestSets f w) = pre ++ s :: post ∧
      calls (FullFQFMimic f w []).2 = pre ++ [s] ∧
      rets (FullFQFMimic f w []).2 = (pre.map fun s => (s, none)) ++ [(s, some e)] := by
  obtain ⟨cs, rs, hc, hr, hs⟩ := FullFQFMimic_run f w []
  rw [h] at hs
  obtain ⟨pre, s, post, h1, h2, h3⟩ := hs
  refine ⟨pre, s, post, h1, ?_, ?_⟩
  · rw [hc, h2]; rfl
  · rw [hr, h3]; rfl

/-- Witness of C3: the variant caller of the second sample fails; the run ends with
that step and `CombineGvcf` is not invoked. -/
theorem FullFQFMimic_first_error_witness :
    calls (FullFQFMimic exFlags secondCallerFailsWorld []).2 =
        [ StepCall.BwaIndex "ref.fa", StepCall.Faidx "ref.fa", StepCall.CreateDict "ref.fa",
          StepCall.ParseReadSets "m.tsv",
          StepCall.BwaMem "ref.fa" "a_1.fq" "a_2.fq" "out_a.bam" 4,
          StepCall.AddRG "out_a.bam" "out_a_rg.bam" "a",
          StepCall.SamIndex "out_a_rg.bam",
          StepCall.HaplotypeCall "ref.fa" "out_a_rg.bam" "out_a.g.vcf.gz" "a" 8,
          StepCall.BwaMem "ref.fa" "b_1.fq" "b_2.fq" "out_b.bam" 4,
          StepCall.AddRG "out_b.bam" "out_b_rg.bam" "b",
          StepCall.SamIndex "out_b_rg.bam",
          StepCall.HaplotypeCall "ref.fa" "out_b_rg.bam" "out_b.g.vcf.gz" "b" 8 ] ∧
      ∃ pre s post,
        successSeq exFlags (manifestSets exFlags secondCallerFailsWorld) = pre ++ s :: post ∧
        calls (FullFQFMimic exFlags secondCallerFailsWorld []).2 = pre ++ [s] ∧
        rets (FullFQFMimic exFlags secondCallerFailsWorld []).2 =
          (pre.map fun s => (s, none)) ++
            [(s, some (GoError.Wrapf "HaplotypeCall" (GoError.New "exit status 1")))] :=
  ⟨by decide, FullFQFMimic_first_error exFlags secondCallerFailsWorld
    (GoError.Wrapf "HaplotypeCall" (GoError.New "exit status 1")) (by decide)⟩


/-- A run over the manifest of `shortRowWorld`: the parse failure is returned, and
the four steps up to `ParseReadSets` are the only ones invoked. -/
theorem FullFQFMimic_parse_failure_example :
    (FullFQFMimic exFlags shortRowWorld []).1 =
        some (GoError.New "ParseReadSets: len(l) 2 < 3; l [b b_1.fq]") ∧
      calls (FullFQFMimic exFlags shortRowWorld []).2 =
        [ StepCall.BwaIndex "ref.fa", StepCall.Faidx "ref.fa", StepCall.CreateDict "ref.fa",
          StepCall.ParseReadSets "m.tsv" ] := by
  decide

/-- A run in which only the flush and the close of the first alignment file fail:
`BwaMem` returns the flush error and the run stops there. -/
theorem FullFQFMimic_flush_failure_example :
    (FullFQFMimic exFlags flushCloseFailWorld []).1 =
        some (GoError.New "flush: no space left on device") ∧
      calls (FullFQFMimic exFlags flushCloseFailWorld []).2 =
        [ StepCall.BwaIndex "ref.fa", StepCall.Faidx "ref.fa", StepCall.CreateDict "ref.fa",
          StepCall.ParseReadSets "m.tsv",
          StepCall.BwaMem "ref.fa" "a_1.fq" "a_2.fq" "out_a.bam" 4 ] := by
  decide

theorem FullFQFMimic_of_none (f : Flags) (w : World) (t : Trace)
    (h : (FullFQFMimic f w t).1 = none) :
    ∃ t5, t5 = t ++ headTrace f ++ (manifestSets f w).flatMap (sampleTrace f) ∧
      FullFQFMimic f w t =
        CombineGvcf f.RefPath (goutpath f.Outpre) (outpath f.Outpre) f.MemoryGb
          ((manifestSets f w).map fun set => gvcfpath f.Outpre set.Name) w t5 := by
  rcases FullFQFMimic_cases f w t with ⟨t5, ht5, _, _, heq⟩ | ⟨e, _, _, he, _⟩
  · exact ⟨t5, ht5, heq⟩
  · rw [h] at he; cases he

theorem FullFQFMimic_trace_of_none (f : Flags) (w : World)
    (h : (FullFQFMimic f w []).1 = none) :
    (FullFQFMimic f w []).2 =
      headTrace f ++ (manifestSets f w).flatMap (sampleTrace f) ++
        [ Event.call (StepCall.CombineGvcf f.RefPath (f.Outpre ++ ".g.vcf.gz")
            (f.Outpre ++ ".vcf.gz") f.MemoryGb
            ((manifestSets f w).map fun set => f.Outpre ++ "_" ++ set.Name ++ ".g.vcf.gz")),
          Event.op (Op.Run
            { Args := ["gatk", "--java-options", "-Xmx" ++ toString f.MemoryGb ++ "g",
                "CombineGVCFs", "-R", f.RefPath, "-O", f.Outpre ++ ".g.vcf.gz"] ++
                (((manifestSets f w).map fun set =>
                  f.Outpre ++ "_" ++ set.Name ++ ".g.vcf.gz").flatMap
                    fun gvcfpath => ["--variant", gvcfpath]),
              Stdin := Stream.null, Stdout := Stream.osStdout, Stderr := Stream.osStderr }),
          Event.op (Op.Run
            { Args := ["gatk", "--java-options", "-Xmx" ++ toString f.MemoryGb ++ "g",
                "GenotypeGVCFs", "-R", f.RefPath, "-V", f.Outpre ++ ".g.vcf.gz",
                "-O", f.Outpre ++ ".vcf.gz"],
              Stdin := Stream.null, Stdout := Stream.null, Stderr := Stream.null }),
          Event.ret (StepCall.CombineGvcf f.RefPath (f.Outpre ++ ".g.vcf.gz")
            (f.Outpre ++ ".vcf.gz") f.MemoryGb
            ((manifestSets f w).map fun set => f.Outpre ++ "_" ++ set.Name ++ ".g.vcf.gz"))
            none ] := by
  obtain ⟨t5, ht5, heq⟩ := FullFQFMimic_of_none f w [] h
  rw [heq] at h ⊢
  rw [CombineGvcf_trace_of_none _ _ _ _ _ _ _ h, CombineGvcf.comb_eq, ht5]
  rfl

theorem ops_flatMap {α : Type} (l : List α) (g : α → Trace) :
    ops (l.flatMap g) = l.flatMap fun x => ops (g x) := by
  induction l with
  | nil => rfl
  | cons x l ih => simp [List.flatMap_cons, ih]

/-- C4.  When `FullFQFMimic` returns nil, the steps it invoked are, in this order:
`BwaIndex`, `Faidx`, `CreateDict` on the reference; `ParseReadSets`; for each
manifest record in manifest order `BwaMem`, `AddRG`, `SamIndex`, `HaplotypeCall` of
that record; and one `CombineGvcf`.  Every one of them returned nil.  The whole trace
of the run is `headTrace`, then `sampleTrace` of each record in manifest order, then
the call of `CombineGvcf`, inside which the command `gatk ... CombineGVCFs ...` runs
first and the command `gatk ... GenotypeGVCFs ...` second. -/
theorem FullFQFMimic_success_order (f : Flags) (w : World)
    (h : (FullFQFMimic f w []).1 = none) :
    calls (FullFQFMimic f w []).2 =
        [ StepCall.BwaIndex f.RefPath, StepCall.Faidx f.RefPath,
          StepCall.CreateDict f.RefPath, StepCall.ParseReadSets f.SeqPairsPath ] ++
        ((manifestSets f w).flatMap fun set =>
          [ StepCall.BwaMem f.RefPath set.ForwardPath set.ReversePath
              (f.Outpre ++ "_" ++ set.Name ++ ".bam") f.Threads,
            StepCall.AddRG (f.Outpre ++ "_" ++ set.Name ++ ".bam")
              (f.Outpre ++ "_" ++ set.Name ++ "_rg.bam") set.Name,
            StepCall.SamIndex (f.Outpre ++ "_" ++ set.Name ++ "_rg.bam"),
            StepCall.HaplotypeCall f.RefPath (f.Outpre ++ "_" ++ set.Name ++ "_rg.bam")
              (f.Outpre ++ "_" ++ set.Name ++ ".g.vcf.gz") set.Name f.MemoryGb ]) ++
        [ StepCall.CombineGvcf f.RefPath (f.Outpre ++ ".g.vcf.gz") (f.Outpre ++ ".vcf.gz")
            f.MemoryGb
            ((manifestSets f w).map fun set => f.Outpre ++ "_" ++ set.Name ++ ".g.vcf.gz") ] ∧
      rets (FullFQFMimic f w []).2 =
        (calls (FullFQFMimic f w []).2).map (fun s => (s, none)) ∧
      (FullFQFMimic f w []).2 =
        headTrace f ++ (manifestSets f w).flatMap (sampleTrace f) ++
          [ Event.call (StepCall.CombineGvcf f.RefPath (f.Outpre ++ ".g.vcf.gz")
              (f.Outpre ++ ".vcf.gz") f.MemoryGb
              ((manifestSets f w).map fun set => f.Outpre ++ "_" ++ set.Name ++ ".g.vcf.gz")),
            Event.op (Op.Run
              { Args := ["gatk", "--java-options", "-Xmx" ++ toString f.MemoryGb ++ "g",
                  "CombineGVCFs", "-R", f.RefPath, "-O", f.Outpre ++ ".g.vcf.gz"] ++
                  (((manifestSets f w).map fun set =>
                    f.Outpre ++ "_" ++ set.Name ++ ".g.vcf.gz").flatMap
                      fun gvcfpath => ["--variant", gvcfpath]),
                Stdin := Stream.null, Stdout := Stream.osStdout,
                Stderr := Stream.osStderr }),
            Event.op (Op.Run
              { Args := ["gatk", "--java-options", "-Xmx" ++ toString f.MemoryGb ++ "g",
                  "GenotypeGVCFs", "-R", f.RefPath, "-V", f.Outpre ++ ".g.vcf.gz",
                  "-O", f.Outpre ++ ".vcf.gz"],
                Stdin := Stream.null, Stdout := Stream.null, Stderr := Stream.null }),
            Event.ret (StepCall.CombineGvcf f.RefPath (f.Outpre ++ ".g.vcf.gz")
              (f.Outpre ++ ".vcf.gz") f.MemoryGb
              ((manifestSets f w).map fun set => f.Outpre ++ "_" ++ set.Name ++ ".g.vcf.gz"))
              none ] := by
  obtain ⟨cs, rs, hc, hr, hs⟩ := FullFQFMimic_run f w []
  rw [h] at hs
  obtain ⟨h1, h2⟩ := hs
  have hcalls : calls (FullFQFMimic f w []).2 = successSeq f (manifestSets f w) := by
    rw [hc, h1]; rfl
  refine ⟨by rw [hcalls]; rfl, ?_, FullFQFMimic_trace_of_none f w h⟩
  rw [hcalls, hr, h2]; rfl

/-- Witness of C4: the run over the two-row manifest of `exWorld`, in which every
operation succeeds.  Thirteen steps are invoked, and the last four of the 61 events
of the run are the call of `CombineGvcf`, the two `gatk` commands and the return. -/
theorem FullFQFMimic_success_order_witness :
    calls (FullFQFMimic exFlags exWorld []).2 =
        [ StepCall.BwaIndex "ref.fa", StepCall.Faidx "ref.fa", StepCall.CreateDict "ref.fa",
          StepCall.ParseReadSets "m.tsv",
          StepCall.BwaMem "ref.fa" "a_1.fq" "a_2.fq" "out_a.bam" 4,
          StepCall.AddRG "out_a.bam" "out_a_rg.bam" "a",
          StepCall.SamIndex "out_a_rg.bam",
          StepCall.HaplotypeCall "ref.fa" "out_a_rg.bam" "out_a.g.vcf.gz" "a" 8,
          StepCall.BwaMem "ref.fa" "b_1.fq" "b_2.fq" "out_b.bam" 4,
          StepCall.AddRG "out_b.bam" "out_b_rg.bam" "b",
          StepCall.SamIndex "out_b_rg.bam",
          StepCall.HaplotypeCall "ref.fa" "out_b_rg.bam" "out_b.g.vcf.gz" "b" 8,
          StepCall.CombineGvcf "ref.fa" "out.g.vcf.gz" "out.vcf.gz" 8
            ["out_a.g.vcf.gz", "out_b.g.vcf.gz"] ] ∧
      (FullFQFMimic exFlags exWorld []).2.drop 57 =
        [ Event.call (StepCall.CombineGvcf "ref.fa" "out.g.vcf.gz" "out.vcf.gz" 8
            ["out_a.g.vcf.gz", "out_b.g.vcf.gz"]),
          Event.op (Op.Run
            { Args := ["gatk", "--java-options", "-Xmx8g", "CombineGVCFs", "-R", "ref.fa",
                "-O", "out.g.vcf.gz", "--variant", "out_a.g.vcf.gz", "--variant",
                "out_b.g.vcf.gz"],
              Stdin := Stream.null, Stdout := Stream.osStdout, Stderr := Stream.osStderr }),
          Event.op (Op.Run
            { Args := ["gatk", "--java-options", "-Xmx8g", "GenotypeGVCFs", "-R", "ref.fa",
                "-V", "out.g.vcf.gz", "-O", "out.vcf.gz"],
              Stdin := Stream.null, Stdout := Stream.null, Stderr := Stream.null }),
          Event.ret (StepCall.CombineGvcf "ref.fa" "out.g.vcf.gz" "out.vcf.gz" 8
            ["out_a.g.vcf.gz", "out_b.g.vcf.gz"]) none ] :=
  ⟨(FullFQFMimic_success_order exFlags exWorld (by decide)).1,
    (congrArg (List.drop 57) (FullFQFMimic_success_order exFlags exWorld (by decide)).2.2).trans
      (by decide)⟩

/-- C5.  In a run of `FullFQFMimic` that returns nil, with output prefix `P`:
the invoked steps carry the paths `P_N.bam`, `P_N_rg.bam`, `P_N.g.vcf.gz` of every
manifest record with name `N`, in manifest order, and `CombineGvcf` carries
`P.g.vcf.gz`, `P.vcf.gz` and the per-sample paths `P_N.g.vcf.gz`; and the operations
of the run are exactly these, in order.  The three reference commands; the opening
and closing of the manifest.  For every record with name `N`, in manifest order:
create `P_N.bam`, the pipes and the three stages `bwa mem`, `samtools view -bS`,
`samtools sort` (the sort writing into `P_N.bam`), flush and close;
`samtools addreplacerg -r @RG<tab>ID:N<tab>SM:N P_N.bam -o P_N_rg.bam`;
`samtools index P_N_rg.bam`; `gatk ... HaplotypeCaller -R ref -I P_N_rg.bam
-O P_N.g.vcf.gz --sample-name N -ERC GVCF`.  Last, `gatk ... CombineGVCFs -R ref
-O P.g.vcf.gz` followed by one pair `--variant P_N.g.vcf.gz` per record in manifest
order, and `gatk ... GenotypeGVCFs -R ref -V P.g.vcf.gz -O P.vcf.gz`. -/
theorem FullFQFMimic_artifact_paths (f : Flags) (w : World)
    (h : (FullFQFMimic f w []).1 = none) :
    calls (FullFQFMimic f w []).2 =
        [ StepCall.BwaIndex f.RefPath, StepCall.Faidx f.RefPath,
          StepCall.CreateDict f.RefPath, StepCall.ParseReadSets f.SeqPairsPath ] ++
        ((manifestSets f w).flatMap fun set =>
          [ StepCall.BwaMem f.RefPath set.ForwardPath set.ReversePath
              (f.Outpre ++ "_" ++ set.Name ++ ".bam") f.Threads,
            StepCall.AddRG (f.Outpre ++ "_" ++ set.Name ++ ".bam")
              (f.Outpre ++ "_" ++ set.Name ++ "_rg.bam") set.Name,
            StepCall.SamIndex (f.Outpre ++ "_" ++ set.Name ++ "_rg.bam"),
            StepCall.HaplotypeCall f.RefPath (f.Outpre ++ "_" ++ set.Name ++ "_rg.bam")
              (f.Outpre ++ "_" ++ set.Name ++ ".g.vcf.gz") set.Name f.MemoryGb ]) ++
        [ StepCall.CombineGvcf f.RefPath (f.Outpre ++ ".g.vcf.gz") (f.Outpre ++ ".vcf.gz")
            f.MemoryGb
            ((manifestSets f w).map fun set => f.Outpre ++ "_" ++ set.Name ++ ".g.vcf.gz") ] ∧
      ops (FullFQFMimic f w []).2 =
        [ Op.Run
            { Args := ["bwa", "index", f.RefPath],
              Stdin := Stream.null, Stdout := Stream.osStdout, Stderr := Stream.osStderr },
          Op.Run
            { Args := ["samtools", "faidx", f.RefPath],
              Stdin := Stream.null, Stdout := Stream.osStdout, Stderr := Stream.osStderr },
          Op.Run
            { Args := ["picard-tools", "CreateSequenceDictionary", "-R", f.RefPath],
              Stdin := Stream.null, Stdout := Stream.osStdout, Stderr := Stream.osStderr },
          Op.Open f.SeqPairsPath,
          Op.Close f.SeqPairsPath ] ++
        ((manifestSets f w).flatMap fun set =>
          [ Op.Create (f.Outpre ++ "_" ++ set.Name ++ ".bam"),
            Op.StdoutPipe
              { Args := ["bwa", "mem", f.RefPath, set.ForwardPath, set.ReversePath, "-t",
                  toString f.Threads],
                Stdin := Stream.null, Stdout := Stream.null, Stderr := Stream.osStderr },
            Op.StdoutPipe
              { Args := ["samtools", "view", "-bS"],
                Stdin := Stream.pipeReader "bwaOut", Stdout := Stream.null,
                Stderr := Stream.osStderr },
            Op.Start
              { Args := ["bwa", "mem", f.RefPath, set.ForwardPath, set.ReversePath, "-t",
                  toString f.Threads],
                Stdin := Stream.null, Stdout := Stream.pipeWriter "bwaOut",
                Stderr := Stream.osStderr },
            Op.Start
              { Args := ["samtools", "view", "-bS"],
                Stdin := Stream.pipeReader "bwaOut", Stdout := Stream.pipeWriter "viewOut",
                Stderr := Stream.osStderr },
            Op.Start
              { Args := ["samtools", "sort"],
                Stdin := Stream.pipeReader "viewOut",
                Stdout := Stream.bufioWriter (f.Outpre ++ "_" ++ set.Name ++ ".bam"),
                Stderr := Stream.osStderr },
            Op.Wait
              { Args := ["bwa", "mem", f.RefPath, set.ForwardPath, set.ReversePath, "-t",
                  toString f.Threads],
                Stdin := Stream.null, Stdout := Stream.pipeWriter "bwaOut",
                Stderr := Stream.osStderr },
            Op.Wait
              { Args := ["samtools", "view", "-bS"],
                Stdin := Stream.pipeReader "bwaOut", Stdout := Stream.pipeWriter "viewOut",
                Stderr := Stream.osStderr },
            Op.Wait
              { Args := ["samtools", "sort"],
                Stdin := Stream.pipeReader "viewOut",
                Stdout := Stream.bufioWriter (f.Outpre ++ "_" ++ set.Name ++ ".bam"),
                Stderr := Stream.osStderr },
            Op.Flush (f.Outpre ++ "_" ++ set.Name ++ ".bam"),
            Op.Close (f.Outpre ++ "_" ++ set.Name ++ ".bam"),
            Op.Run
              { Args := ["samtools", "addreplacerg", "-r",
                  "@RG\tID:" ++ set.Name ++ "\tSM:" ++ set.Name,
                  f.Outpre ++ "_" ++ set.Name ++ ".bam", "-o",
                  f.Outpre ++ "_" ++ set.Name ++ "_rg.bam"],
                Stdin := Stream.null, Stdout := Stream.osStdout,
                Stderr := Stream.osStderr },
            Op.Run
              { Args := ["samtools", "index", f.Outpre ++ "_" ++ set.Name ++ "_rg.bam"],
                Stdin := Stream.null, Stdout := Stream.osStdout,
                Stderr := Stream.osStderr },
            Op.Run
              { Args := ["gatk", "--java-options", "-Xmx" ++ toString f.MemoryGb ++ "g",
                  "HaplotypeCaller", "-R", f.RefPath,
                  "-I", f.Outpre ++ "_" ++ set.Name ++ "_rg.bam",
                  "-O", f.Outpre ++ "_" ++ set.Name ++ ".g.vcf.gz",
                  "--sample-name", set.Name, "-ERC", "GVCF"],
                Stdin := Stream.null, Stdout := Stream.osStdout,
                Stderr := Stream.osStderr } ]) ++
        [ Op.Run
            { Args := ["gatk", "--java-options", "-Xmx" ++ toString f.MemoryGb ++ "g",
                "CombineGVCFs", "-R", f.RefPath, "-O", f.Outpre ++ ".g.vcf.gz"] ++
                (((manifestSets f w).map fun set =>
                  f.Outpre ++ "_" ++ set.Name ++ ".g.vcf.gz").flatMap
                    fun gvcfpath => ["--variant", gvcfpath]),
              Stdin := Stream.null, Stdout := Stream.osStdout, Stderr := Stream.osStderr },
          Op.Run
            { Args := ["gatk", "--java-options", "-Xmx" ++ toString f.MemoryGb ++ "g",
                "GenotypeGVCFs", "-R", f.RefPath, "-V", f.Outpre ++ ".g.vcf.gz",
                "-O", f.Outpre ++ ".vcf.gz"],
              Stdin := Stream.null, Stdout := Stream.null, Stderr := Stream.null } ] := by
  obtain ⟨cs, rs, hc, hr, hs⟩ := FullFQFMimic_run f w []
  rw [h] at hs
  obtain ⟨h1, h2⟩ := hs
  refine ⟨by rw [hc, h1]; rfl, ?_⟩
  rw [FullFQFMimic_trace_of_none f w h, ops_append, ops_append, ops_flatMap]
  rfl

/-- Witness of C5: the run over the two-row manifest of `exWorld`, in which every
operation succeeds.  What follows the first nineteen operations of the run (the
reference commands, the manifest and sample `a`) are the operations of sample `b`
and the two final commands. -/
theorem FullFQFMimic_artifact_paths_witness :
    (ops (FullFQFMimic exFlags exWorld []).2).drop 19 =
      [ Op.Create "out_b.bam",
        Op.StdoutPipe
          { Args := ["bwa", "mem", "ref.fa", "b_1.fq", "b_2.fq", "-t", "4"],
            Stdin := Stream.null, Stdout := Stream.null, Stderr := Stream.osStderr },
        Op.StdoutPipe
          { Args := ["samtools", "view", "-bS"],
            Stdin := Stream.pipeReader "bwaOut", Stdout := Stream.null,
            Stderr := Stream.osStderr },
        Op.Start
          { Args := ["bwa", "mem", "ref.fa", "b_1.fq", "b_2.fq", "-t", "4"],
            Stdin := Stream.null, Stdout := Stream.pipeWriter "bwaOut",
            Stderr := Stream.osStderr },
        Op.Start
          { Args := ["samtools", "view", "-bS"],
            Stdin := Stream.pipeReader "bwaOut", Stdout := Stream.pipeWriter "viewOut",
            Stderr := Stream.osStderr },
        Op.Start
          { Args := ["samtools", "sort"],
            Stdin := Stream.pipeReader "viewOut", Stdout := Stream.bufioWriter "out_b.bam",
            Stderr := Stream.osStderr },
        Op.Wait
          { Args := ["bwa", "mem", "ref.fa", "b_1.fq", "b_2.fq", "-t", "4"],
            Stdin := Stream.null, Stdout := Stream.pipeWriter "bwaOut",
            Stderr := Stream.osStderr },
        Op.Wait
          { Args := ["samtools", "view", "-bS"],
            Stdin := Stream.pipeReader "bwaOut", Stdout := Stream.pipeWriter "viewOut",
            Stderr := Stream.osStderr },
        Op.Wait
          { Args := ["samtools", "sort"],
            Stdin := Stream.pipeReader "viewOut", Stdout := Stream.bufioWriter "out_b.bam",
            Stderr := Stream.osStderr },
        Op.Flush "out_b.bam",
        Op.Close "out_b.bam",
        Op.Run
          { Args := ["samtools", "addreplacerg", "-r", "@RG\tID:b\tSM:b", "out_b.bam", "-o",
              "out_b_rg.bam"],
            Stdin := Stream.null, Stdout := Stream.osStdout, Stderr := Stream.osStderr },
        Op.Run
          { Args := ["samtools", "index", "out_b_rg.bam"],
            Stdin := Stream.null, Stdout := Stream.osStdout, Stderr := Stream.osStderr },
        Op.Run
          { Args := ["gatk", "--java-options", "-Xmx8g", "HaplotypeCaller", "-R", "ref.fa",
              "-I", "out_b_rg.bam", "-O", "out_b.g.vcf.gz", "--sample-name", "b", "-ERC",
              "GVCF"],
            Stdin := Stream.null, Stdout := Stream.osStdout, Stderr := Stream.osStderr },
        Op.Run
          { Args := ["gatk", "--java-options", "-Xmx8g", "CombineGVCFs", "-R", "ref.fa",
              "-O", "out.g.vcf.gz", "--variant", "out_a.g.vcf.gz", "--variant",
              "out_b.g.vcf.gz"],
            Stdin := Stream.null, Stdout := Stream.osStdout, Stderr := Stream.osStderr },
        Op.Run
          { Args := ["gatk", "--java-options", "-Xmx8g", "GenotypeGVCFs", "-R", "ref.fa",
              "-V", "out.g.vcf.gz", "-O", "out.vcf.gz"],
            Stdin := Stream.null, Stdout := Stream.null, Stderr := Stream.null } ] :=
  (congrArg (List.drop 19) (FullFQFMimic_artifact_paths exFlags exWorld (by decide)).2).trans
    (by decide)

theorem memstr_ne_variant (memoryGb : Int) : memstr memoryGb ≠ "--variant" := by
  intro h
  have hd := congrArg String.data h
  simp [memstr, String.data_append] at hd

theorem goutpath_ne_variant (Outpre : String) : goutpath Outpre ≠ "--variant" := by
  intro h
  have hd := congrArg String.data h
  simp only [goutpath, String.data_append] at hd
  have hl := congrArg List.length hd
  simp at hl
  have hnil : Outpre.data = [] := List.length_eq_zero.mp hl
  rw [hnil] at hd
  simp at hd

theorem parse_not_passed (f : Flags) (e : GoError) (cs : List StepCall)
    (rs : List (StepCall × Option GoError))
    (hs : StopsAtFirstError
      [ StepCall.BwaIndex f.RefPath, StepCall.Faidx f.RefPath, StepCall.CreateDict f.RefPath,
        StepCall.ParseReadSets f.SeqPairsPath ] (some e) cs rs) :
    (StepCall.ParseReadSets f.SeqPairsPath, none) ∉ rets [] ++ rs := by
  intro hret
  obtain ⟨pre, s, post, h1, _, h3⟩ := hs
  rw [h3] at hret
  simp only [rets, List.nil_append, List.mem_append, List.mem_map, List.mem_singleton,
    Prod.mk.injEq, reduceCtorEq, and_false, or_false, and_true, exists_eq_right] at hret
  rcases pre with _ | ⟨a, _ | ⟨b, _ | ⟨c, _ | ⟨d, rest⟩⟩⟩⟩
  · simp at hret
  · simp only [List.singleton_append, List.cons.injEq] at h1
    simp only [List.mem_singleton] at hret
    rw [← h1.1] at hret; cases hret
  · simp only [List.cons_append, List.nil_append, List.cons.injEq] at h1
    simp only [List.mem_cons, List.mem_singleton, List.not_mem_nil, or_false] at hret
    rw [← h1.1, ← h1.2.1] at hret
    rcases hret with hm | hm <;> cases hm
  · simp only [List.cons_append, List.nil_append, List.cons.injEq] at h1
    simp only [List.mem_cons, List.mem_singleton, List.not_mem_nil, or_false] at hret
    rw [← h1.1, ← h1.2.1, ← h1.2.2.1] at hret
    rcases hret with hm | hm | hm <;> cases hm
  · simp at h1

/-- C7, refuted as stated: with the reference path `--variant` and the empty
manifest, `ParseReadSets` returns no record and nil, `CombineGvcf` is invoked with an
empty list of inputs, and the `CombineGVCFs` command that is run contains the
argument `--variant`. -/
theorem FullFQFMimic_empty_manifest_variant_ref :
    manifestSets variantRefFlags emptyWorld = [] ∧
      (StepCall.ParseReadSets "m.tsv", none) ∈
        rets (FullFQFMimic variantRefFlags emptyWorld []).2 ∧
      StepCall.CombineGvcf "--variant" "out.g.vcf.gz" "out.vcf.gz" 8 [] ∈
        calls (FullFQFMimic variantRefFlags emptyWorld []).2 ∧
      Op.Run
        { Args := ["gatk", "--java-options", "-Xmx8g", "CombineGVCFs", "-R", "--variant",
            "-O", "out.g.vcf.gz"],
          Stdin := Stream.null, Stdout := Stream.osStdout, Stderr := Stream.osStderr } ∈
        ops (FullFQFMimic variantRefFlags emptyWorld []).2 ∧
      "--variant" ∈ ["gatk", "--java-options", "-Xmx8g", "CombineGVCFs", "-R", "--variant",
        "-O", "out.g.vcf.gz"] := by
  decide

theorem CombineGvcf_ops (fapath gvcfoutpath vcfoutpath : String) (memoryGb : Int)
    (gvcfpaths : List String) (w : World) (t : Trace) :
    ∃ rest,
      ops (CombineGvcf fapath gvcfoutpath vcfoutpath memoryGb gvcfpaths w t).2 =
        ops t ++ Op.Run (CombineGvcf.comb fapath gvcfoutpath memoryGb gvcfpaths) :: rest ∧
      (rest = [] ∨
        rest = [Op.Run (CombineGvcf.geno fapath gvcfoutpath vcfoutpath memoryGb)]) := by
  simp only [CombineGvcf, traced, perform]
  cases h1 : w.outcome
      (t ++ [Event.call (StepCall.CombineGvcf fapath gvcfoutpath vcfoutpath memoryGb gvcfpaths)])
      (Op.Run (CombineGvcf.comb fapath gvcfoutpath memoryGb gvcfpaths))
  · simp only []
    generalize w.outcome _ (Op.Run (CombineGvcf.geno fapath gvcfoutpath vcfoutpath memoryGb)) = a
    refine ⟨[Op.Run (CombineGvcf.geno fapath gvcfoutpath vcfoutpath memoryGb)], ?_, Or.inr rfl⟩
    cases a <;> simp [ops]
  · exact ⟨[], by simp [ops], Or.inl rfl⟩

/-- C7, amended.  Let the manifest hold no record and let `ParseReadSets` have
returned nil in the run.  Then the invoked steps are `BwaIndex`, `Faidx`,
`CreateDict`, `ParseReadSets` and `CombineGvcf` with an empty list of inputs, and no
`BwaMem`, `AddRG`, `SamIndex` or `HaplotypeCall`.  The operations of the run are the
three reference commands, the opening and closing of the manifest, the command
`gatk --java-options -Xmx<m>g CombineGVCFs -R <ref> -O <P>.g.vcf.gz` with exactly
these eight arguments and no `--variant <path>` pair, and after it nothing or the
`GenotypeGVCFs` command.  Among the eight arguments the string `--variant` can occur
only as the reference path itself. -/
theorem FullFQFMimic_empty_manifest (f : Flags) (w : World)
    (hsets : manifestSets f w = [])
    (hret : (StepCall.ParseReadSets f.SeqPairsPath, none) ∈ rets (FullFQFMimic f w []).2) :
    calls (FullFQFMimic f w []).2 =
        [ StepCall.BwaIndex f.RefPath, StepCall.Faidx f.RefPath,
          StepCall.CreateDict f.RefPath, StepCall.ParseReadSets f.SeqPairsPath,
          StepCall.CombineGvcf f.RefPath (f.Outpre ++ ".g.vcf.gz") (f.Outpre ++ ".vcf.gz")
            f.MemoryGb [] ] ∧
      (∃ rest,
        ops (FullFQFMimic f w []).2 =
          [ Op.Run
              { Args := ["bwa", "index", f.RefPath],
                Stdin := Stream.null, Stdout := Stream.osStdout,
                Stderr := Stream.osStderr },
            Op.Run
              { Args := ["samtools", "faidx", f.RefPath],
                Stdin := Stream.null, Stdout := Stream.osStdout,
                Stderr := Stream.osStderr },
            Op.Run
              { Args := ["picard-tools", "CreateSequenceDictionary", "-R", f.RefPath],
                Stdin := Stream.null, Stdout := Stream.osStdout,
                Stderr := Stream.osStderr },
            Op.Open f.SeqPairsPath,
            Op.Close f.SeqPairsPath,
            Op.Run
              { Args := ["gatk", "--java-options", "-Xmx" ++ toString f.MemoryGb ++ "g",
                  "CombineGVCFs", "-R", f.RefPath, "-O", f.Outpre ++ ".g.vcf.gz"],
                Stdin := Stream.null, Stdout := Stream.osStdout,
                Stderr := Stream.osStderr } ] ++ rest ∧
        (rest = [] ∨
          rest = [ Op.Run
            { Args := ["gatk", "--java-options", "-Xmx" ++ toString f.MemoryGb ++ "g",
                "GenotypeGVCFs", "-R", f.RefPath, "-V", f.Outpre ++ ".g.vcf.gz",
                "-O", f.Outpre ++ ".vcf.gz"],
              Stdin := Stream.null, Stdout := Stream.null, Stderr := Stream.null } ])) ∧
      ∀ a ∈ ["gatk", "--java-options", "-Xmx" ++ toString f.MemoryGb ++ "g",
          "CombineGVCFs", "-R", f.RefPath, "-O", f.Outpre ++ ".g.vcf.gz"],
        a = "--variant" → a = f.RefPath := by
  have hcases := FullFQFMimic_cases f w []
  rw [hsets] at hcases
  refine ⟨?_, ?_, ?_⟩
  · rcases hcases with ⟨t5, _, hc, _, heq⟩ | ⟨e, cs, rs, _, _, hr, hs⟩
    · rw [heq, (CombineGvcf_isStep _ _ _ _ _ w t5).1, hc]
      rfl
    · rw [hr] at hret
      exact absurd hret (parse_not_passed f e cs rs hs)
  · rcases hcases with ⟨t5, ht5, _, _, heq⟩ | ⟨e, cs, rs, _, _, hr, hs⟩
    · obtain ⟨rest, hops, hrest⟩ := CombineGvcf_ops f.RefPath (goutpath f.Outpre)
        (outpath f.Outpre) f.MemoryGb [] w t5
      rw [CombineGvcf.comb_eq] at hops
      refine ⟨rest, ?_, hrest⟩
      rw [heq, List.map_nil, hops, ht5]
      simp only [List.flatMap_nil, List.append_nil, List.nil_append]
      rfl
    · rw [hr] at hret
      exact absurd hret (parse_not_passed f e cs rs hs)
  · intro a ha hv
    have h1 := memstr_ne_variant f.MemoryGb
    have h2 := goutpath_ne_variant f.Outpre
    simp only [memstr, goutpath] at h1 h2
    simp only [List.mem_cons, List.mem_singleton, List.not_mem_nil, or_false] at ha
    rcases ha with rfl | rfl | rfl | rfl | rfl | rfl | rfl | rfl
    · exact absurd hv (by decide)
    · exact absurd hv (by decide)
    · exact absurd hv h1
    · exact absurd hv (by decide)
    · exact absurd hv (by decide)
    · rfl
    · exact absurd hv (by decide)
    · exact absurd hv h2

/-- Witness of C7 amended: the run over the empty manifest of `emptyWorld`. -/
theorem FullFQFMimic_empty_manifest_witness :
    calls (FullFQFMimic exFlags emptyWorld []).2 =
        [ StepCall.BwaIndex "ref.fa", StepCall.Faidx "ref.fa", StepCall.CreateDict "ref.fa",
          StepCall.ParseReadSets "m.tsv",
          StepCall.CombineGvcf "ref.fa" "out.g.vcf.gz" "out.vcf.gz" 8 [] ] ∧
      ∃ rest,
        ops (FullFQFMimic exFlags emptyWorld []).2 =
          [ Op.Run
              { Args := ["bwa", "index", "ref.fa"],
                Stdin := Stream.null, Stdout := Stream.osStdout,
                Stderr := Stream.osStderr },
            Op.Run
              { Args := ["samtools", "faidx", "ref.fa"],
                Stdin := Stream.null, Stdout := Stream.osStdout,
                Stderr := Stream.osStderr },
            Op.Run
              { Args := ["picard-tools", "CreateSequenceDictionary", "-R", "ref.fa"],
                Stdin := Stream.null, Stdout := Stream.osStdout,
                Stderr := Stream.osStderr },
            Op.Open "m.tsv",
            Op.Close "m.tsv",
            Op.Run
              { Args := ["gatk", "--java-options", "-Xmx8g", "CombineGVCFs", "-R", "ref.fa",
                  "-O", "out.g.vcf.gz"],
                Stdin := Stream.null, Stdout := Stream.osStdout,
                Stderr := Stream.osStderr } ] ++ rest ∧
        (rest = [] ∨
          rest = [ Op.Run
            { Args := ["gatk", "--java-options", "-Xmx8g", "GenotypeGVCFs", "-R", "ref.fa",
                "-V", "out.g.vcf.gz", "-O", "out.vcf.gz"],
              Stdin := Stream.null, Stdout := Stream.null, Stderr := Stream.null } ]) :=
  ⟨(FullFQFMimic_empty_manifest exFlags emptyWorld (by decide) (by decide)).1,
    (FullFQFMimic_empty_manifest exFlags emptyWorld (by decide) (by decide)).2.1⟩

/-- C9, evaluated on the code.  `CombineGvcf` runs two commands; the second one,
`gatk GenotypeGVCFs`, is run with its standard output and its standard error left
unset, while the first has both forwarded. -/
theorem CombineGvcf_geno_streams_unset :
    ops (CombineGvcf "ref.fa" "out.g.vcf.gz" "out.vcf.gz" 8 ["out_a.g.vcf.gz"]
        emptyWorld []).2 =
      [ Op.Run
          { Args := ["gatk", "--java-options", "-Xmx8g", "CombineGVCFs", "-R", "ref.fa", "-O",
              "out.g.vcf.gz", "--variant", "out_a.g.vcf.gz"],
            Stdin := Stream.null, Stdout := Stream.osStdout, Stderr := Stream.osStderr },
        Op.Run
          { Args := ["gatk", "--java-options", "-Xmx8g", "GenotypeGVCFs", "-R", "ref.fa", "-V",
              "out.g.vcf.gz", "-O", "out.vcf.gz"],
            Stdin := Stream.null, Stdout := Stream.null, Stderr := Stream.null } ] := by
  decide

/-- The part of C9 that holds: every command other than `geno` of `CombineGvcf` has
its standard error forwarded, and the seven other commands that are run to completion
have their standard output forwarded as well. -/
theorem other_commands_forward_streams (a b c d e : String) (n : Int) (l : List String) :
    (BwaIndex.cmd a).Stderr = Stream.osStderr ∧ (BwaIndex.cmd a).Stdout = Stream.osStdout ∧
    (Faidx.cmd a).Stderr = Stream.osStderr ∧ (Faidx.cmd a).Stdout = Stream.osStdout ∧
    (CreateDict.cmd a).Stderr = Stream.osStderr ∧
    (CreateDict.cmd a).Stdout = Stream.osStdout ∧
    (AddRG.cmd a b c).Stderr = Stream.osStderr ∧ (AddRG.cmd a b c).Stdout = Stream.osStdout ∧
    (SamIndex.cmd a).Stderr = Stream.osStderr ∧ (SamIndex.cmd a).Stdout = Stream.osStdout ∧
    (HaplotypeCall.cmd a b c d n).Stderr = Stream.osStderr ∧
    (HaplotypeCall.cmd a b c d n).Stdout = Stream.osStdout ∧
    (CombineGvcf.comb a b n l).Stderr = Stream.osStderr ∧
    (CombineGvcf.comb a b n l).Stdout = Stream.osStdout ∧
    (BwaMem.bwaCmd a b c n).Stderr = Stream.osStderr ∧
    BwaMem.viewCmd.Stderr = Stream.osStderr ∧
    (BwaMem.sortCmd e).Stderr = Stream.osStderr :=
  ⟨rfl, rfl, rfl, rfl, rfl, rfl, rfl, rfl, rfl, rfl, rfl, rfl, rfl, rfl, rfl, rfl, rfl⟩

/-- C10, refuted as stated: the names `a` and `a_rg` are distinct, yet the tagged
alignment of `a` and the alignment of `a_rg` are the same path. -/
theorem artifact_paths_collide :
    "a" ≠ "a_rg" ∧ bampathrg "out" "a" = bampath "out" "a_rg" := by
  decide

theorem path_eq_iff (P N M s1 s2 : String) :
    P ++ "_" ++ N ++ s1 = P ++ "_" ++ M ++ s2 ↔ N.data ++ s1.data = M.data ++ s2.data := by
  rw [String.ext_iff]
  simp [String.data_append]

theorem samplePaths_disjoint (P N M : String) (hne : N ≠ M) (h1 : N ≠ M ++ "_rg")
    (h2 : M ≠ N ++ "_rg") :
    ∀ p ∈ samplePaths P N, ∀ q ∈ samplePaths P M, p ≠ q := by
  have hN : ∀ s : String, N.data ++ s.data = M.data ++ s.data → False := by
    intro s h
    exact hne (String.ext (List.append_cancel_right h))
  have hrg1 : N.data ++ ".bam".data = M.data ++ "_rg.bam".data → False := by
    intro h
    apply h1
    apply String.ext
    have h' : N.data ++ ".bam".data = (M.data ++ "_rg".data) ++ ".bam".data := by
      rw [h]; simp
    rw [String.data_append]
    exact List.append_cancel_right h'
  have hrg2 : N.data ++ "_rg.bam".data = M.data ++ ".bam".data → False := by
    intro h
    apply h2
    apply String.ext
    have h' : M.data ++ ".bam".data = (N.data ++ "_rg".data) ++ ".bam".data := by
      rw [← h]; simp
    rw [String.data_append]
    exact List.append_cancel_right h'
  have hlast : ∀ a b : List Char, (a ++ ".bam".data = b ++ ".g.vcf.gz".data → False) ∧
      (a ++ "_rg.bam".data = b ++ ".g.vcf.gz".data → False) := by
    intro a b
    constructor <;> intro h <;> have hr := congrArg List.reverse h <;> simp at hr
  intro p hp q hq
  simp only [samplePaths, bampath, bampathrg, gvcfpath, List.mem_cons, List.mem_singleton,
    List.not_mem_nil, or_false] at hp hq
  rcases hp with rfl | rfl | rfl <;> rcases hq with rfl | rfl | rfl <;>
    rw [Ne, path_eq_iff]
  · exact hN _
  · exact hrg1
  · exact (hlast _ _).1
  · exact hrg2
  · exact hN _
  · exact (hlast _ _).2
  · exact fun h => (hlast _ _).1 h.symm
  · exact fun h => (hlast _ _).2 h.symm
  · exact hN _

theorem samplePaths_ne_combined (P N : String) :
    ∀ p ∈ samplePaths P N, p ≠ goutpath P ∧ p ≠ outpath P := by
  intro p hp
  simp only [samplePaths, bampath, bampathrg, gvcfpath, List.mem_cons, List.mem_singleton,
    List.not_mem_nil, or_false] at hp
  rcases hp with rfl | rfl | rfl <;> constructor <;> intro h <;>
    have hd := congrArg String.data h <;>
    simp [goutpath, outpath, String.data_append] at hd

/-- C10, amended.  Let the sample names of the manifest be pairwise distinct and let
no sample name be another sample name followed by `_rg`.  Then no intermediate path
of one sample equals an intermediate path of another sample, and no intermediate
path equals the combined outputs `P.g.vcf.gz` and `P.vcf.gz`. -/
theorem artifact_paths_unique (P : String) (sets : List ReadSet)
    (hnames : sets.Pairwise fun s s' =>
      s.Name ≠ s'.Name ∧ s.Name ≠ s'.Name ++ "_rg" ∧ s'.Name ≠ s.Name ++ "_rg") :
    (sets.Pairwise fun s s' =>
        ∀ p ∈ samplePaths P s.Name, ∀ q ∈ samplePaths P s'.Name, p ≠ q) ∧
      ∀ s ∈ sets, ∀ p ∈ samplePaths P s.Name, p ≠ goutpath P ∧ p ≠ outpath P :=
  ⟨hnames.imp fun h => samplePaths_disjoint P _ _ h.1 h.2.1 h.2.2,
    fun s _ => samplePaths_ne_combined P s.Name⟩

/-- Witness of C10 amended: the two records of the manifest of `exWorld`. -/
theorem artifact_paths_unique_witness :
    ((manifestSets exFlags exWorld).Pairwise fun s s' =>
        ∀ p ∈ samplePaths "out" s.Name, ∀ q ∈ samplePaths "out" s'.Name, p ≠ q) ∧
      ∀ s ∈ manifestSets exFlags exWorld, ∀ p ∈ samplePaths "out" s.Name,
        p ≠ goutpath "out" ∧ p ≠ outpath "out" :=
  artifact_paths_unique "out" (manifestSets exFlags exWorld) (by decide)

end GatkGenotype
